import Mathlib

/-!
# Ramdisk driver: block store and control-plane dispatcher

A shallow embedding of `ramdisk.c` / `ramdisk.h`.

* Machine integers are `Nat` / `Int`; where the C arithmetic can wrap the
  reduction modulo `2 ^ w` is written out (`size_t` and `ULONGLONG` are 64 bits
  wide, `ULONG` 32 bits, `LONGLONG` is a signed 64-bit integer).
* The device extension is passed explicitly; a handler returns the device
  extension and the request as it leaves them.
* A request records every call of `WdfRequestCompleteWithInformation` made on it.
* The disk image is a list of bytes; an access outside the image is undefined
  behaviour in C and makes the read / write handler return `none`.
-/

namespace Ramdisk

/-! ## Basic types -/

/-- One byte (`UCHAR`); the driver only moves bytes around, it never computes on them. -/
abbrev UCHAR := Nat

/-- The status codes the driver and the framework routines it calls hand out. -/
inductive NTSTATUS where
  | STATUS_SUCCESS
  | STATUS_BUFFER_OVERFLOW
  | STATUS_INVALID_PARAMETER
  | STATUS_INVALID_DEVICE_REQUEST
  | STATUS_BUFFER_TOO_SMALL
  | STATUS_INSUFFICIENT_RESOURCES
  | STATUS_INTERNAL_ERROR
  deriving DecidableEq, Repr

open NTSTATUS

/-- `MEDIA_TYPE` of `ntdddisk.h`, reduced to the members that matter here. -/
inductive MEDIA_TYPE where
  | Unknown
  | RemovableMedia
  | FixedMedia
  deriving DecidableEq, Repr

/-- `DISK_GEOMETRY` of `ntdddisk.h`. -/
structure DISK_GEOMETRY where
  Cylinders : Int
  MediaType : MEDIA_TYPE
  TracksPerCylinder : Nat
  SectorsPerTrack : Nat
  BytesPerSector : Nat
  deriving DecidableEq, Repr

/-- `DISK_INFO` of `ramdisk.h`: `ULONG disk_size; UCHAR partition_type;`. -/
structure DISK_INFO where
  disk_size : Nat
  partition_type : UCHAR
  deriving DecidableEq, Repr

/-- `DEVICE_EXTENSION` of `ramdisk.h`; `disk_image` stands for the memory block the
pointer of that name addresses. -/
structure DEVICE_EXTENSION where
  disk_image : List UCHAR
  disk_geometry : DISK_GEOMETRY
  disk_info : DISK_INFO
  deriving DecidableEq, Repr

/-! ## Geometry and parameter check -/

/-- `set_disk_geometry`: the five assignments, in source order; the cylinder count reads
back the three fields assigned before it. -/
def set_disk_geometry (device_extension : DEVICE_EXTENSION) : DEVICE_EXTENSION :=
  let g1 := { device_extension.disk_geometry with BytesPerSector := 512 }
  let g2 := { g1 with SectorsPerTrack := 32 }
  let g3 := { g2 with TracksPerCylinder := 2 }
  let g4 := { g3 with
    Cylinders := Int.ofNat (device_extension.disk_info.disk_size
                              / g3.BytesPerSector
                              / g3.SectorsPerTrack
                              / g3.TracksPerCylinder) }
  let g5 := { g4 with MediaType := MEDIA_TYPE.FixedMedia }
  { device_extension with disk_geometry := g5 }

/-- `(ULONGLONG) offset.QuadPart`: the 64-bit two's complement pattern read as unsigned. -/
def ULONGLONG_of (QuadPart : Int) : Nat := (QuadPart % 2 ^ 64).toNat

/-- `offset.LowPart`: the low 32 bits of the 64-bit value. -/
def LowPart (QuadPart : Int) : Nat := (QuadPart % 2 ^ 32).toNat

/-- `check_parameters`. The sum `(ULONGLONG) offset.QuadPart + length` is a 64-bit unsigned
sum, `BytesPerSector - 1` a 32-bit unsigned difference, zero-extended for the `&` with the
64-bit `length`. -/
def check_parameters (device_extension : DEVICE_EXTENSION) (offset : Int) (length : Nat) : Bool :=
  if offset < 0
      ∨ (ULONGLONG_of offset + length) % 2 ^ 64 > device_extension.disk_info.disk_size
      ∨ length &&& ((device_extension.disk_geometry.BytesPerSector + 2 ^ 32 - 1) % 2 ^ 32) ≠ 0 then
    false
  else
    true

/-! ## Requests and the framework routines the handlers call -/

/-- `PARTITION_INFORMATION` of `ntdddisk.h`. -/
structure PARTITION_INFORMATION where
  StartingOffset : Int
  PartitionLength : Int
  HiddenSectors : Nat
  PartitionNumber : Nat
  PartitionType : UCHAR
  BootIndicator : Bool
  RecognizedPartition : Bool
  RewritePartition : Bool
  deriving DecidableEq, Repr

/-- `GET_LENGTH_INFORMATION` of `ntdddisk.h`. -/
structure GET_LENGTH_INFORMATION where
  Length : Int
  deriving DecidableEq, Repr

/-- `STORAGE_HOTPLUG_INFO` of `ntddstor.h`. -/
structure STORAGE_HOTPLUG_INFO where
  Size : Nat
  MediaRemovable : Bool
  MediaHotplug : Bool
  DeviceHotplug : Bool
  WriteCacheEnableOverride : Bool
  deriving DecidableEq, Repr

/-- A structure stored field by field through the typed pointer to a request's output
buffer. -/
inductive IOCTL_RECORD where
  | partition_information (value : PARTITION_INFORMATION)
  | disk_geometry (value : DISK_GEOMETRY)
  | length_information (value : GET_LENGTH_INFORMATION)
  | storage_hotplug_info (value : STORAGE_HOTPLUG_INFO)
  deriving DecidableEq, Repr

/-- The fields of `WDF_REQUEST_PARAMETERS` the driver reads:
`Parameters.Read.DeviceOffset` / `Parameters.Write.DeviceOffset` and
`Parameters.DeviceIoControl.OutputBufferLength` / `InputBufferLength`. -/
structure WDF_REQUEST_PARAMETERS where
  DeviceOffset : Int
  OutputBufferLength : Nat
  InputBufferLength : Nat
  deriving DecidableEq, Repr

/-- A framework request (`WDFREQUEST`) as the handlers see it.

* `DeviceOffset`: the byte offset of a read or write.
* `OutputBuffer`, `InputBuffer`: the bytes of the caller's buffers.
* `OutputFailure`, `InputFailure`: set when the framework cannot hand the buffer out; the
  value is the status the retrieval routine then returns.
* `OutputRecord`: the structure a control handler stored through the typed pointer to the
  output buffer, `none` while nothing has been stored.
* `Completed`: the `(status, information)` pairs the request was completed with, in order. -/
structure WDFREQUEST where
  DeviceOffset : Int
  OutputBuffer : List UCHAR
  InputBuffer : List UCHAR
  OutputFailure : Option NTSTATUS
  InputFailure : Option NTSTATUS
  OutputRecord : Option IOCTL_RECORD
  Completed : List (NTSTATUS × Nat)
  deriving DecidableEq, Repr

/-- `WdfRequestGetParameters(request, &parameters)`: the buffer lengths are those of the
request's buffers. -/
def WdfRequestGetParameters (request : WDFREQUEST) : WDF_REQUEST_PARAMETERS :=
  { DeviceOffset := request.DeviceOffset
    OutputBufferLength := request.OutputBuffer.length
    InputBufferLength := request.InputBuffer.length }

/-- `WdfRequestCompleteWithInformation(request, status, information)`. -/
def WdfRequestCompleteWithInformation (request : WDFREQUEST) (status : NTSTATUS)
    (information : Nat) : WDFREQUEST :=
  { request with Completed := request.Completed ++ [(status, information)] }

/-- `WdfRequestRetrieveOutputMemory(request, &hMemory)`. -/
def WdfRequestRetrieveOutputMemory (request : WDFREQUEST) : Except NTSTATUS (List UCHAR) :=
  match request.OutputFailure with
  | some status => .error status
  | none => .ok request.OutputBuffer

/-- `WdfRequestRetrieveInputMemory(request, &hMemory)`. -/
def WdfRequestRetrieveInputMemory (request : WDFREQUEST) : Except NTSTATUS (List UCHAR) :=
  match request.InputFailure with
  | some status => .error status
  | none => .ok request.InputBuffer

/-- `WdfRequestRetrieveOutputBuffer(request, MinimumRequiredSize, &buffer, NULL)`: fails with
`STATUS_BUFFER_TOO_SMALL` when the buffer is shorter than `MinimumRequiredSize`. -/
def WdfRequestRetrieveOutputBuffer (request : WDFREQUEST) (MinimumRequiredSize : Nat) :
    Except NTSTATUS (List UCHAR) :=
  match request.OutputFailure with
  | some status => .error status
  | none =>
    if request.OutputBuffer.length < MinimumRequiredSize then .error STATUS_BUFFER_TOO_SMALL
    else .ok request.OutputBuffer

/-- `WdfRequestRetrieveInputBuffer(request, MinimumRequiredSize, &buffer, NULL)`. -/
def WdfRequestRetrieveInputBuffer (request : WDFREQUEST) (MinimumRequiredSize : Nat) :
    Except NTSTATUS (List UCHAR) :=
  match request.InputFailure with
  | some status => .error status
  | none =>
    if request.InputBuffer.length < MinimumRequiredSize then .error STATUS_BUFFER_TOO_SMALL
    else .ok request.InputBuffer

/-- `RtlCopyMemory(destination + start, source, source.length)` inside one memory block:
the bytes of `source` replace those of `destination` from index `start` on. -/
def RtlCopyMemory (destination : List UCHAR) (start : Nat) (source : List UCHAR) : List UCHAR :=
  destination.take start ++ source ++ destination.drop (start + source.length)

/-- `RtlZeroMemory(destination, length)`. -/
def RtlZeroMemory (destination : List UCHAR) (length : Nat) : List UCHAR :=
  RtlCopyMemory destination 0 (List.replicate length 0)

/-- `WdfMemoryCopyFromBuffer(hMemory, 0, disk_image + start, length)`: copies `length` bytes
of the disk image, from index `start` on, to the start of the memory object. The framework
refuses with `STATUS_BUFFER_TOO_SMALL` when the memory object holds fewer than `length`
bytes; reading past the end of the image is undefined (`none`). The result is the status and
the memory object's bytes. -/
def WdfMemoryCopyFromBuffer (hMemory : List UCHAR) (disk_image : List UCHAR) (start : Nat)
    (length : Nat) : Option (NTSTATUS × List UCHAR) :=
  if length > hMemory.length then
    some (STATUS_BUFFER_TOO_SMALL, hMemory)
  else if start + length > disk_image.length then
    none
  else
    some (STATUS_SUCCESS, RtlCopyMemory hMemory 0 ((disk_image.drop start).take length))

/-- `WdfMemoryCopyToBuffer(hMemory, 0, disk_image + start, length)`: copies the first `length`
bytes of the memory object into the disk image from index `start` on. The framework refuses
with `STATUS_BUFFER_TOO_SMALL` when the memory object holds fewer than `length` bytes;
writing past the end of the image is undefined (`none`). The result is the status and the
disk image. -/
def WdfMemoryCopyToBuffer (hMemory : List UCHAR) (disk_image : List UCHAR) (start : Nat)
    (length : Nat) : Option (NTSTATUS × List UCHAR) :=
  if length > hMemory.length then
    some (STATUS_BUFFER_TOO_SMALL, disk_image)
  else if start + length > disk_image.length then
    none
  else
    some (STATUS_SUCCESS, RtlCopyMemory disk_image start (hMemory.take length))

/-! ## Read and write -/

/-- `EvtIoRead`; `device_extension` is `QueueGetExtension(queue)->device_extension`. -/
def EvtIoRead (device_extension : DEVICE_EXTENSION) (request : WDFREQUEST) (length : Nat) :
    Option (DEVICE_EXTENSION × WDFREQUEST) :=
  let parameters := WdfRequestGetParameters request
  let offset := parameters.DeviceOffset
  if !check_parameters device_extension offset length then
    some (device_extension,
      WdfRequestCompleteWithInformation request STATUS_INVALID_PARAMETER length)
  else
    match WdfRequestRetrieveOutputMemory request with
    | .error status =>
      some (device_extension, WdfRequestCompleteWithInformation request status length)
    | .ok hMemory =>
      match WdfMemoryCopyFromBuffer hMemory device_extension.disk_image (LowPart offset) length with
      | none => none
      | some (status, memory) =>
        some (device_extension,
          WdfRequestCompleteWithInformation { request with OutputBuffer := memory }
            status length)

/-- `EvtIoWrite`; `device_extension` is `QueueGetExtension(queue)->device_extension`. -/
def EvtIoWrite (device_extension : DEVICE_EXTENSION) (request : WDFREQUEST) (length : Nat) :
    Option (DEVICE_EXTENSION × WDFREQUEST) :=
  let parameters := WdfRequestGetParameters request
  let offset := parameters.DeviceOffset
  if !check_parameters device_extension offset length then
    some (device_extension,
      WdfRequestCompleteWithInformation request STATUS_INVALID_PARAMETER length)
  else
    match WdfRequestRetrieveInputMemory request with
    | .error status =>
      some (device_extension, WdfRequestCompleteWithInformation request status length)
    | .ok hMemory =>
      match WdfMemoryCopyToBuffer hMemory device_extension.disk_image (LowPart offset) length with
      | none => none
      | some (status, image) =>
        some ({ device_extension with disk_image := image },
          WdfRequestCompleteWithInformation request status length)

/-! ## Device control -/

/-- `CTL_CODE(DeviceType, Function, Method, Access)` of the Windows headers. -/
def CTL_CODE (DeviceType Function Method Access : Nat) : Nat :=
  DeviceType * 2 ^ 16 + Access * 2 ^ 14 + Function * 2 ^ 2 + Method

/-! The control codes, as `ntdddisk.h`, `ntddstor.h` and `mountdev.h` define them
(`IOCTL_DISK_BASE` is 7, `IOCTL_STORAGE_BASE` is `0x2d`, `MOUNTDEVCONTROLTYPE` is `0x4D`,
`METHOD_BUFFERED` and `FILE_ANY_ACCESS` are 0, `FILE_READ_ACCESS` is 1,
`FILE_WRITE_ACCESS` is 2). -/

@[reducible] def IOCTL_DISK_GET_DRIVE_GEOMETRY : Nat := CTL_CODE 0x07 0x0000 0 0
@[reducible] def IOCTL_DISK_GET_PARTITION_INFO : Nat := CTL_CODE 0x07 0x0001 0 1
@[reducible] def IOCTL_DISK_SET_PARTITION_INFO : Nat := CTL_CODE 0x07 0x0002 0 3
@[reducible] def IOCTL_DISK_IS_WRITABLE : Nat := CTL_CODE 0x07 0x0009 0 0
@[reducible] def IOCTL_DISK_GET_LENGTH_INFO : Nat := CTL_CODE 0x07 0x0017 0 1
@[reducible] def IOCTL_DISK_CHECK_VERIFY : Nat := CTL_CODE 0x07 0x0200 0 1
@[reducible] def IOCTL_DISK_MEDIA_REMOVAL : Nat := CTL_CODE 0x07 0x0201 0 1
@[reducible] def IOCTL_DISK_GET_MEDIA_TYPES : Nat := CTL_CODE 0x07 0x0300 0 0
@[reducible] def IOCTL_STORAGE_CHECK_VERIFY : Nat := CTL_CODE 0x2d 0x0200 0 1
@[reducible] def IOCTL_STORAGE_MEDIA_REMOVAL : Nat := CTL_CODE 0x2d 0x0201 0 1
@[reducible] def IOCTL_STORAGE_GET_MEDIA_TYPES : Nat := CTL_CODE 0x2d 0x0300 0 0
@[reducible] def IOCTL_STORAGE_GET_HOTPLUG_INFO : Nat := CTL_CODE 0x2d 0x0305 0 0
@[reducible] def IOCTL_MOUNTDEV_QUERY_UNIQUE_ID : Nat := CTL_CODE 0x4D 0 0 0
@[reducible] def IOCTL_MOUNTDEV_QUERY_DEVICE_NAME : Nat := CTL_CODE 0x4D 2 0 0

/-! The structure sizes, as the Windows headers lay the structures out. -/

/-- `sizeof(PARTITION_INFORMATION)`: two `LARGE_INTEGER`, two `ULONG`, four bytes, padded to
a multiple of 8. -/
@[reducible] def sizeof_PARTITION_INFORMATION : Nat := 32
/-- `sizeof(SET_PARTITION_INFORMATION)`: one `UCHAR`. -/
@[reducible] def sizeof_SET_PARTITION_INFORMATION : Nat := 1
/-- `sizeof(DISK_GEOMETRY)`: a `LARGE_INTEGER`, the media type and three `ULONG`. -/
@[reducible] def sizeof_DISK_GEOMETRY : Nat := 24
/-- `sizeof(MOUNTDEV_NAME)`: `USHORT NameLength; WCHAR Name[1];`. -/
@[reducible] def sizeof_MOUNTDEV_NAME : Nat := 4
/-- `sizeof(MOUNTDEV_UNIQUE_ID)`: `USHORT UniqueIdLength; UCHAR UniqueId[1];`, padded to a
multiple of 2. -/
@[reducible] def sizeof_MOUNTDEV_UNIQUE_ID : Nat := 4
/-- `sizeof(GET_LENGTH_INFORMATION)`: one `LARGE_INTEGER`. -/
@[reducible] def sizeof_GET_LENGTH_INFORMATION : Nat := 8
/-- `sizeof(STORAGE_HOTPLUG_INFO)`: a `ULONG` and four `BOOLEAN`. -/
@[reducible] def sizeof_STORAGE_HOTPLUG_INFO : Nat := 8
/-- `sizeof(BOOLEAN)`. -/
@[reducible] def sizeof_BOOLEAN : Nat := 1
/-- `sizeof(USHORT)`. -/
@[reducible] def sizeof_USHORT : Nat := 2
/-- `sizeof(WCHAR)`. -/
@[reducible] def sizeof_WCHAR : Nat := 2

/-- `NT_DEVICE_NAME` of `ramdisk.h`, without the `L` prefix. -/
def NT_DEVICE_NAME : String := "\\Device\\Ramdisk"

/-- The bytes of a wide string in memory: each 16-bit character low byte first. -/
def wide_bytes (text : String) : List UCHAR :=
  text.toList.flatMap (fun c => [c.toNat % 256, c.toNat / 256 % 256])

/-- A constant `UNICODE_STRING`: its byte length and the bytes `Buffer` points to. -/
structure UNICODE_STRING where
  Length : Nat
  Buffer : List UCHAR
  deriving DecidableEq, Repr

/-- `DECLARE_CONST_UNICODE_STRING(nt_name, NT_DEVICE_NAME)`: `Length` is the size of the
literal less its terminating character. -/
def nt_name : UNICODE_STRING :=
  { Length := sizeof_WCHAR * (NT_DEVICE_NAME.length + 1) - sizeof_WCHAR
    Buffer := wide_bytes NT_DEVICE_NAME }

/-- The store `p->Field = value` of a `USHORT` field at byte `start` of `buffer`, low byte
first. -/
def store_USHORT (buffer : List UCHAR) (start : Nat) (value : Nat) : List UCHAR :=
  RtlCopyMemory buffer start [value % 256, value / 256 % 256]

/-- The `USHORT` read back from byte `start` of `buffer`. -/
def load_USHORT (buffer : List UCHAR) (start : Nat) : Nat :=
  buffer.getD start 0 + 256 * buffer.getD (start + 1) 0

/-- `FIELD_OFFSET(MOUNTDEV_NAME, NameLength)`. -/
@[reducible] def offsetof_NameLength : Nat := 0
/-- `FIELD_OFFSET(MOUNTDEV_NAME, Name)`. -/
@[reducible] def offsetof_Name : Nat := 2
/-- `FIELD_OFFSET(MOUNTDEV_UNIQUE_ID, UniqueIdLength)`. -/
@[reducible] def offsetof_UniqueIdLength : Nat := 0
/-- `FIELD_OFFSET(MOUNTDEV_UNIQUE_ID, UniqueId)`. -/
@[reducible] def offsetof_UniqueId : Nat := 2

/-- `query_device_name`: the status, the value stored in `*length`, and the request with
its output buffer as the routine leaves it. -/
def query_device_name (request : WDFREQUEST) (parameters : WDF_REQUEST_PARAMETERS) :
    NTSTATUS × Nat × WDFREQUEST :=
  if parameters.OutputBufferLength < sizeof_MOUNTDEV_NAME then
    (STATUS_BUFFER_TOO_SMALL, sizeof_MOUNTDEV_NAME, request)
  else
    match WdfRequestRetrieveOutputBuffer request sizeof_MOUNTDEV_NAME with
    | .error status => (status, 0, request)
    | .ok name =>
      let name := RtlZeroMemory name sizeof_MOUNTDEV_NAME
      let name := store_USHORT name offsetof_NameLength nt_name.Length
      if parameters.OutputBufferLength < sizeof_USHORT + nt_name.Length then
        (STATUS_BUFFER_OVERFLOW, sizeof_MOUNTDEV_NAME, { request with OutputBuffer := name })
      else
        let name := RtlCopyMemory name offsetof_Name (nt_name.Buffer.take nt_name.Length)
        (STATUS_SUCCESS, sizeof_USHORT + nt_name.Length, { request with OutputBuffer := name })

/-- `query_unique_id`: as `query_device_name`, on a `MOUNTDEV_UNIQUE_ID`. -/
def query_unique_id (request : WDFREQUEST) (parameters : WDF_REQUEST_PARAMETERS) :
    NTSTATUS × Nat × WDFREQUEST :=
  if parameters.OutputBufferLength < sizeof_MOUNTDEV_UNIQUE_ID then
    (STATUS_BUFFER_TOO_SMALL, sizeof_MOUNTDEV_UNIQUE_ID, request)
  else
    match WdfRequestRetrieveOutputBuffer request sizeof_MOUNTDEV_UNIQUE_ID with
    | .error status => (status, 0, request)
    | .ok unique_id =>
      let unique_id := RtlZeroMemory unique_id sizeof_MOUNTDEV_UNIQUE_ID
      let unique_id := store_USHORT unique_id offsetof_UniqueIdLength nt_name.Length
      if parameters.OutputBufferLength < sizeof_USHORT + nt_name.Length then
        (STATUS_BUFFER_OVERFLOW, sizeof_MOUNTDEV_UNIQUE_ID,
          { request with OutputBuffer := unique_id })
      else
        let unique_id :=
          RtlCopyMemory unique_id offsetof_UniqueId (nt_name.Buffer.take nt_name.Length)
        (STATUS_SUCCESS, sizeof_USHORT + nt_name.Length,
          { request with OutputBuffer := unique_id })

/-- `get_length_info`. -/
def get_length_info (device_extension : DEVICE_EXTENSION) (request : WDFREQUEST)
    (parameters : WDF_REQUEST_PARAMETERS) : NTSTATUS × Nat × WDFREQUEST :=
  if parameters.OutputBufferLength < sizeof_GET_LENGTH_INFORMATION then
    (STATUS_BUFFER_TOO_SMALL, sizeof_GET_LENGTH_INFORMATION, request)
  else
    match WdfRequestRetrieveOutputBuffer request sizeof_GET_LENGTH_INFORMATION with
    | .error status => (status, 0, request)
    | .ok _ =>
      let length_information : GET_LENGTH_INFORMATION :=
        { Length := Int.ofNat device_extension.disk_info.disk_size }
      (STATUS_SUCCESS, sizeof_GET_LENGTH_INFORMATION,
        { request with OutputRecord := some (.length_information length_information) })

/-- `get_hotplug_info`. -/
def get_hotplug_info (request : WDFREQUEST) (parameters : WDF_REQUEST_PARAMETERS) :
    NTSTATUS × Nat × WDFREQUEST :=
  if parameters.OutputBufferLength < sizeof_STORAGE_HOTPLUG_INFO then
    (STATUS_BUFFER_TOO_SMALL, sizeof_STORAGE_HOTPLUG_INFO, request)
  else
    match WdfRequestRetrieveOutputBuffer request sizeof_STORAGE_HOTPLUG_INFO with
    | .error status => (status, 0, request)
    | .ok _ =>
      let storage_hotplug_info : STORAGE_HOTPLUG_INFO :=
        { Size := sizeof_STORAGE_HOTPLUG_INFO
          MediaRemovable := false
          MediaHotplug := false
          DeviceHotplug := false
          WriteCacheEnableOverride := false }
      (STATUS_SUCCESS, sizeof_STORAGE_HOTPLUG_INFO,
        { request with OutputRecord := some (.storage_hotplug_info storage_hotplug_info) })

/-- How a `case` of the `switch` in `EvtIoDeviceControl` ends: with a `return` after the
request has been completed there, or with a `break` that leaves `status` and `information`
for the completion after the `switch`. -/
inductive SWITCH_EXIT where
  | returned (device_extension : DEVICE_EXTENSION) (request : WDFREQUEST)
  | break_ (device_extension : DEVICE_EXTENSION) (request : WDFREQUEST) (status : NTSTATUS)
      (information : Nat)

/-- The `switch (code)` of `EvtIoDeviceControl`. -/
def EvtIoDeviceControl_switch (device_extension : DEVICE_EXTENSION) (request : WDFREQUEST)
    (parameters : WDF_REQUEST_PARAMETERS)
    (output_buffer_length input_buffer_length : Nat) (code : Nat) : SWITCH_EXIT :=
  if code = IOCTL_DISK_GET_PARTITION_INFO then
    if output_buffer_length < sizeof_PARTITION_INFORMATION then
      .returned device_extension
        (WdfRequestCompleteWithInformation request STATUS_BUFFER_TOO_SMALL
          sizeof_PARTITION_INFORMATION)
    else
      match WdfRequestRetrieveOutputBuffer request sizeof_PARTITION_INFORMATION with
      | .error status =>
        .returned device_extension (WdfRequestCompleteWithInformation request status 0)
      | .ok _ =>
        let partition_information : PARTITION_INFORMATION :=
          { StartingOffset := 0
            PartitionLength := Int.ofNat device_extension.disk_info.disk_size
            HiddenSectors := 1
            PartitionNumber := 2 ^ 32 - 1
            PartitionType := device_extension.disk_info.partition_type
            BootIndicator := false
            RecognizedPartition := true
            RewritePartition := false }
        .break_ device_extension
          { request with OutputRecord := some (.partition_information partition_information) }
          STATUS_SUCCESS sizeof_PARTITION_INFORMATION
  else if code = IOCTL_DISK_SET_PARTITION_INFO then
    if input_buffer_length < sizeof_SET_PARTITION_INFORMATION then
      .returned device_extension
        (WdfRequestCompleteWithInformation request STATUS_BUFFER_TOO_SMALL
          sizeof_SET_PARTITION_INFORMATION)
    else
      match WdfRequestRetrieveInputBuffer request sizeof_SET_PARTITION_INFORMATION with
      | .error status =>
        .returned device_extension (WdfRequestCompleteWithInformation request status 0)
      | .ok set_partition_information =>
        .break_
          { device_extension with
            disk_info := { device_extension.disk_info with
              partition_type := set_partition_information.headD 0 } }
          request STATUS_SUCCESS 0
  else if code = IOCTL_DISK_GET_DRIVE_GEOMETRY then
    if output_buffer_length < sizeof_DISK_GEOMETRY then
      .returned device_extension
        (WdfRequestCompleteWithInformation request STATUS_BUFFER_TOO_SMALL sizeof_DISK_GEOMETRY)
    else
      match WdfRequestRetrieveOutputBuffer request sizeof_DISK_GEOMETRY with
      | .error status =>
        .returned device_extension (WdfRequestCompleteWithInformation request status 0)
      | .ok _ =>
        .break_ device_extension
          { request with OutputRecord := some (.disk_geometry device_extension.disk_geometry) }
          STATUS_SUCCESS sizeof_DISK_GEOMETRY
  else if code = IOCTL_DISK_GET_MEDIA_TYPES ∨ code = IOCTL_STORAGE_GET_MEDIA_TYPES then
    if output_buffer_length < sizeof_DISK_GEOMETRY then
      .returned device_extension
        (WdfRequestCompleteWithInformation request STATUS_BUFFER_TOO_SMALL sizeof_DISK_GEOMETRY)
    else
      match WdfRequestRetrieveOutputBuffer request sizeof_DISK_GEOMETRY with
      | .error status =>
        .returned device_extension (WdfRequestCompleteWithInformation request status 0)
      | .ok _ =>
        .break_ device_extension
          { request with OutputRecord := some (.disk_geometry device_extension.disk_geometry) }
          STATUS_SUCCESS sizeof_DISK_GEOMETRY
  else if code = IOCTL_DISK_CHECK_VERIFY ∨ code = IOCTL_STORAGE_CHECK_VERIFY
      ∨ code = IOCTL_DISK_IS_WRITABLE then
    .break_ device_extension request STATUS_SUCCESS 0
  else if code = IOCTL_MOUNTDEV_QUERY_DEVICE_NAME then
    match query_device_name request parameters with
    | (status, length, request) => .break_ device_extension request status length
  else if code = IOCTL_MOUNTDEV_QUERY_UNIQUE_ID then
    match query_unique_id request parameters with
    | (status, length, request) => .break_ device_extension request status length
  else if code = IOCTL_DISK_MEDIA_REMOVAL ∨ code = IOCTL_STORAGE_MEDIA_REMOVAL then
    if input_buffer_length < sizeof_BOOLEAN then
      .returned device_extension
        (WdfRequestCompleteWithInformation request STATUS_INVALID_DEVICE_REQUEST sizeof_BOOLEAN)
    else
      .break_ device_extension request STATUS_SUCCESS 0
  else if code = IOCTL_DISK_GET_LENGTH_INFO then
    match get_length_info device_extension request parameters with
    | (status, length, request) => .break_ device_extension request status length
  else if code = IOCTL_STORAGE_GET_HOTPLUG_INFO then
    match get_hotplug_info request parameters with
    | (status, length, request) => .break_ device_extension request status length
  else
    .break_ device_extension request STATUS_INVALID_DEVICE_REQUEST 0

/-- `EvtIoDeviceControl`; `device_extension` is
`QueueGetExtension(queue)->device_extension`. -/
def EvtIoDeviceControl (device_extension : DEVICE_EXTENSION) (request : WDFREQUEST)
    (output_buffer_length input_buffer_length : Nat) (code : Nat) :
    DEVICE_EXTENSION × WDFREQUEST :=
  let parameters := WdfRequestGetParameters request
  match EvtIoDeviceControl_switch device_extension request parameters
      output_buffer_length input_buffer_length code with
  | .returned device_extension request => (device_extension, request)
  | .break_ device_extension request status information =>
    (device_extension, WdfRequestCompleteWithInformation request status information)

/-- The framework's call of `EvtIoDeviceControl` for `request` with control code `code`:
the two length arguments are the lengths of the request's buffers. -/
def device_control (device_extension : DEVICE_EXTENSION) (request : WDFREQUEST) (code : Nat) :
    DEVICE_EXTENSION × WDFREQUEST :=
  EvtIoDeviceControl device_extension request request.OutputBuffer.length
    request.InputBuffer.length code

/-- A control request that has not been completed, with the given output and input buffers. -/
def control_request (output input : List UCHAR) : WDFREQUEST :=
  { DeviceOffset := 0
    OutputBuffer := output
    InputBuffer := input
    OutputFailure := none
    InputFailure := none
    OutputRecord := none
    Completed := [] }

/-- The control operations with a fixed-size record: the control code, the size of the
record, and whether that size is required of the input buffer (set-partition-info) rather
than of the output buffer. -/
def fixed_size_operations : List (Nat × Nat × Bool) :=
  [ (IOCTL_DISK_GET_PARTITION_INFO, sizeof_PARTITION_INFORMATION, false),
    (IOCTL_DISK_SET_PARTITION_INFO, sizeof_SET_PARTITION_INFORMATION, true),
    (IOCTL_DISK_GET_DRIVE_GEOMETRY, sizeof_DISK_GEOMETRY, false),
    (IOCTL_DISK_GET_MEDIA_TYPES, sizeof_DISK_GEOMETRY, false),
    (IOCTL_STORAGE_GET_MEDIA_TYPES, sizeof_DISK_GEOMETRY, false),
    (IOCTL_MOUNTDEV_QUERY_DEVICE_NAME, sizeof_MOUNTDEV_NAME, false),
    (IOCTL_MOUNTDEV_QUERY_UNIQUE_ID, sizeof_MOUNTDEV_UNIQUE_ID, false),
    (IOCTL_DISK_GET_LENGTH_INFO, sizeof_GET_LENGTH_INFORMATION, false),
    (IOCTL_STORAGE_GET_HOTPLUG_INFO, sizeof_STORAGE_HOTPLUG_INFO, false) ]

/-- The length of the buffer a control operation measures: the input buffer when
`on_input`, the output buffer otherwise. -/
def supplied_length (request : WDFREQUEST) (on_input : Bool) : Nat :=
  if on_input then request.InputBuffer.length else request.OutputBuffer.length

/-- The header the two identity queries build in the output buffer: the first
`sizeof(MOUNTDEV_NAME)` bytes zeroed, then the length field stored. -/
def identity_header (buffer : List UCHAR) : List UCHAR :=
  store_USHORT (RtlZeroMemory buffer sizeof_MOUNTDEV_NAME) 0 nt_name.Length

/-- The complete record: the header, then the name bytes copied behind the length field. -/
def identity_record (buffer : List UCHAR) : List UCHAR :=
  RtlCopyMemory (identity_header buffer) 2 (nt_name.Buffer.take nt_name.Length)

/-- The control codes that have a `case` label in the `switch` of `EvtIoDeviceControl`. -/
def recognised_codes : List Nat :=
  [ IOCTL_DISK_GET_PARTITION_INFO, IOCTL_DISK_SET_PARTITION_INFO,
    IOCTL_DISK_GET_DRIVE_GEOMETRY, IOCTL_DISK_GET_MEDIA_TYPES, IOCTL_STORAGE_GET_MEDIA_TYPES,
    IOCTL_DISK_CHECK_VERIFY, IOCTL_STORAGE_CHECK_VERIFY, IOCTL_DISK_IS_WRITABLE,
    IOCTL_MOUNTDEV_QUERY_DEVICE_NAME, IOCTL_MOUNTDEV_QUERY_UNIQUE_ID,
    IOCTL_DISK_MEDIA_REMOVAL, IOCTL_STORAGE_MEDIA_REMOVAL, IOCTL_DISK_GET_LENGTH_INFO,
    IOCTL_STORAGE_GET_HOTPLUG_INFO ]

/-- The status and information `EvtIoDeviceControl` completes a request with when both
buffers can be retrieved, tabulated by control code and buffer lengths (the theorem
`device_control_completion` relates the table to the handler). -/
def control_completion (code output_length input_length : Nat) : NTSTATUS × Nat :=
  if code = IOCTL_DISK_GET_PARTITION_INFO then
    if output_length < sizeof_PARTITION_INFORMATION then
      (STATUS_BUFFER_TOO_SMALL, sizeof_PARTITION_INFORMATION)
    else (STATUS_SUCCESS, sizeof_PARTITION_INFORMATION)
  else if code = IOCTL_DISK_SET_PARTITION_INFO then
    if input_length < sizeof_SET_PARTITION_INFORMATION then
      (STATUS_BUFFER_TOO_SMALL, sizeof_SET_PARTITION_INFORMATION)
    else (STATUS_SUCCESS, 0)
  else if code = IOCTL_DISK_GET_DRIVE_GEOMETRY ∨ code = IOCTL_DISK_GET_MEDIA_TYPES
      ∨ code = IOCTL_STORAGE_GET_MEDIA_TYPES then
    if output_length < sizeof_DISK_GEOMETRY then (STATUS_BUFFER_TOO_SMALL, sizeof_DISK_GEOMETRY)
    else (STATUS_SUCCESS, sizeof_DISK_GEOMETRY)
  else if code = IOCTL_DISK_CHECK_VERIFY ∨ code = IOCTL_STORAGE_CHECK_VERIFY
      ∨ code = IOCTL_DISK_IS_WRITABLE then
    (STATUS_SUCCESS, 0)
  else if code = IOCTL_MOUNTDEV_QUERY_DEVICE_NAME ∨ code = IOCTL_MOUNTDEV_QUERY_UNIQUE_ID then
    if output_length < sizeof_MOUNTDEV_NAME then (STATUS_BUFFER_TOO_SMALL, sizeof_MOUNTDEV_NAME)
    else if output_length < sizeof_USHORT + nt_name.Length then
      (STATUS_BUFFER_OVERFLOW, sizeof_MOUNTDEV_NAME)
    else (STATUS_SUCCESS, sizeof_USHORT + nt_name.Length)
  else if code = IOCTL_DISK_MEDIA_REMOVAL ∨ code = IOCTL_STORAGE_MEDIA_REMOVAL then
    if input_length < sizeof_BOOLEAN then (STATUS_INVALID_DEVICE_REQUEST, sizeof_BOOLEAN)
    else (STATUS_SUCCESS, 0)
  else if code = IOCTL_DISK_GET_LENGTH_INFO then
    if output_length < sizeof_GET_LENGTH_INFORMATION then
      (STATUS_BUFFER_TOO_SMALL, sizeof_GET_LENGTH_INFORMATION)
    else (STATUS_SUCCESS, sizeof_GET_LENGTH_INFORMATION)
  else if code = IOCTL_STORAGE_GET_HOTPLUG_INFO then
    if output_length < sizeof_STORAGE_HOTPLUG_INFO then
      (STATUS_BUFFER_TOO_SMALL, sizeof_STORAGE_HOTPLUG_INFO)
    else (STATUS_SUCCESS, sizeof_STORAGE_HOTPLUG_INFO)
  else
    (STATUS_INVALID_DEVICE_REQUEST, 0)

/-! ## Forward progress -/

/-- The major function codes of `wdm.h` that `EvtIoWdmIrpForForwardProgress` names. -/
@[reducible] def IRP_MJ_READ : Nat := 0x03
/-- `IRP_MJ_WRITE` of `wdm.h`. -/
@[reducible] def IRP_MJ_WRITE : Nat := 0x04
/-- `IRP_MJ_DEVICE_CONTROL` of `wdm.h`. -/
@[reducible] def IRP_MJ_DEVICE_CONTROL : Nat := 0x0e
/-- `IRP_MJ_INTERNAL_DEVICE_CONTROL` of `wdm.h`. -/
@[reducible] def IRP_MJ_INTERNAL_DEVICE_CONTROL : Nat := 0x0f

/-- The field of `IO_STACK_LOCATION` the classifier reads (a `UCHAR`). -/
structure IO_STACK_LOCATION where
  MajorFunction : Nat
  deriving DecidableEq, Repr

/-- An `IRP`, with its current stack location. -/
structure IRP where
  CurrentStackLocation : IO_STACK_LOCATION
  deriving DecidableEq, Repr

/-- `IoGetCurrentIrpStackLocation(Irp)`. -/
def IoGetCurrentIrpStackLocation (Irp : IRP) : IO_STACK_LOCATION :=
  Irp.CurrentStackLocation

/-- `WDF_IO_FORWARD_PROGRESS_ACTION`. -/
inductive WDF_IO_FORWARD_PROGRESS_ACTION where
  | WdfIoForwardProgressActionFailRequest
  | WdfIoForwardProgressActionUseReservedRequest
  deriving DecidableEq, Repr

/-- A queue handle (`WDFQUEUE`), given by its `QUEUE_EXTENSION` of `ramdisk.h`. -/
structure WDFQUEUE where
  device_extension : DEVICE_EXTENSION
  deriving DecidableEq, Repr

/-- `EvtIoWdmIrpForForwardProgress`: the `switch` on the major function of the current stack
location; `Queue` is an unreferenced parameter. -/
def EvtIoWdmIrpForForwardProgress (_Queue : WDFQUEUE) (Irp : IRP) :
    WDF_IO_FORWARD_PROGRESS_ACTION :=
  let irpStack := IoGetCurrentIrpStackLocation Irp
  if irpStack.MajorFunction = IRP_MJ_READ
      ∨ irpStack.MajorFunction = IRP_MJ_WRITE
      ∨ irpStack.MajorFunction = IRP_MJ_DEVICE_CONTROL
      ∨ irpStack.MajorFunction = IRP_MJ_INTERNAL_DEVICE_CONTROL then
    WDF_IO_FORWARD_PROGRESS_ACTION.WdfIoForwardProgressActionUseReservedRequest
  else
    WDF_IO_FORWARD_PROGRESS_ACTION.WdfIoForwardProgressActionFailRequest

/-- Modelled from the spec: the per-request auxiliary state ("context"),
`FWD_PROGRESS_REQUEST_CONTEXT` of `forward_progress.h`, a header that is not among the
sources. Its fields are not known and no routine at hand reads them; `zeroed` is the context
as the framework hands it out. -/
inductive FWD_PROGRESS_REQUEST_CONTEXT where
  | zeroed
  deriving DecidableEq, Repr

/-- What the allocation hooks see of a framework request object: whether it is a reserved
request (`WdfRequestIsReserved`) and the forward-progress context attached to it, if any. -/
structure REQUEST_OBJECT where
  IsReserved : Bool
  Context : Option FWD_PROGRESS_REQUEST_CONTEXT
  deriving DecidableEq, Repr

/-- `WdfObjectAllocateContext(request, &attributes, &context)`: `failure` is the status the
framework returns when it cannot allocate; otherwise a context is attached to the object. -/
def WdfObjectAllocateContext (request : REQUEST_OBJECT) (failure : Option NTSTATUS) :
    NTSTATUS × REQUEST_OBJECT :=
  match failure with
  | some status => (status, request)
  | none => (STATUS_SUCCESS, { request with Context := some .zeroed })

/-- Modelled from the spec: `GetForwardProgressRequestContext(request)`, the accessor
`forward_progress.h` declares for the context type; it gives the context attached to the
object, if there is one. -/
def GetForwardProgressRequestContext (request : REQUEST_OBJECT) :
    Option FWD_PROGRESS_REQUEST_CONTEXT :=
  request.Context

/-- `AllocateAdditionalRequestContext`: returns the status of `WdfObjectAllocateContext`. -/
def AllocateAdditionalRequestContext (request : REQUEST_OBJECT) (failure : Option NTSTATUS) :
    NTSTATUS × REQUEST_OBJECT :=
  WdfObjectAllocateContext request failure

/-- `EvtIoAllocateResourcesForReservedRequest`: the status of
`AllocateAdditionalRequestContext`; when `NT_SUCCESS(status)` the context is fetched and not
used. `Queue` is an unreferenced parameter; `failure` is the allocation failure of the moment, if any. -/
def EvtIoAllocateResourcesForReservedRequest (_Queue : WDFQUEUE) (Request : REQUEST_OBJECT)
    (failure : Option NTSTATUS) : NTSTATUS × REQUEST_OBJECT :=
  match AllocateAdditionalRequestContext Request failure with
  | (status, Request) =>
    if status = STATUS_SUCCESS then
      let _fwdReqContext := GetForwardProgressRequestContext Request
      (status, Request)
    else
      (status, Request)

/-- `EvtIoAllocateResources`: `status = STATUS_SUCCESS`, the context is fetched and not
used, `status` is returned. `Queue` is an unreferenced parameter. -/
def EvtIoAllocateResources (_Queue : WDFQUEUE) (Request : REQUEST_OBJECT) :
    NTSTATUS × REQUEST_OBJECT :=
  let status := STATUS_SUCCESS
  let _fwdReqContext := GetForwardProgressRequestContext Request
  (status, Request)

/-- A request object the framework has just created: not reserved, no context attached. -/
def new_request_object : REQUEST_OBJECT :=
  { IsReserved := false, Context := none }

/-! ## Concrete devices and requests -/

/-- `DEFAULT_DISK_SIZE` of `ramdisk.h`. -/
def DEFAULT_DISK_SIZE : Nat := 1024 * 1024

/-- The device extension `EvtDriverDeviceAdd` sets up for a disk of `disk_size` bytes, all
of value `fill`: the image, the size, then `set_disk_geometry`. -/
def new_device (disk_size : Nat) (fill : UCHAR) : DEVICE_EXTENSION :=
  set_disk_geometry
    { disk_image := List.replicate disk_size fill
      disk_geometry := ⟨0, MEDIA_TYPE.Unknown, 0, 0, 0⟩
      disk_info := ⟨disk_size, 0⟩ }

/-- A write request that has not been completed: `data` at `offset`. -/
def write_request (offset : Int) (data : List UCHAR) : WDFREQUEST :=
  { DeviceOffset := offset
    OutputBuffer := []
    InputBuffer := data
    OutputFailure := none
    InputFailure := none
    OutputRecord := none
    Completed := [] }

/-- A read request that has not been completed: into the buffer `buffer`, from `offset`. -/
def read_request (offset : Int) (buffer : List UCHAR) : WDFREQUEST :=
  { DeviceOffset := offset
    OutputBuffer := buffer
    InputBuffer := []
    OutputFailure := none
    InputFailure := none
    OutputRecord := none
    Completed := [] }

/-! ## Theorems -/

/-! ### Arithmetic of `check_parameters` -/

theorem ULONGLONG_of_nonneg {offset : Int} (h0 : 0 ≤ offset) (h1 : offset < 2 ^ 64) :
    ULONGLONG_of offset = offset.toNat := by
  unfold ULONGLONG_of
  rw [Int.emod_eq_of_lt h0 h1]

theorem LowPart_nonneg {offset : Int} (h0 : 0 ≤ offset) (h1 : offset < 2 ^ 32) :
    LowPart offset = offset.toNat := by
  unfold LowPart
  rw [Int.emod_eq_of_lt h0 h1]

theorem sector_mask (length : Nat) : length &&& 511 = length % 512 :=
  Nat.and_pow_two_sub_one_eq_mod length 9

/-- What `check_parameters` computes, for a 512-byte sector and a 64-bit signed offset: the
bound is tested on the sum reduced modulo `2 ^ 64`. -/
theorem check_parameters_eq_true_iff (device_extension : DEVICE_EXTENSION) (offset : Int)
    (length : Nat) (hbps : device_extension.disk_geometry.BytesPerSector = 512)
    (hoff : offset < 2 ^ 63) :
    check_parameters device_extension offset length = true
      ↔ 0 ≤ offset
        ∧ (offset.toNat + length) % 2 ^ 64 ≤ device_extension.disk_info.disk_size
        ∧ length % 512 = 0 := by
  unfold check_parameters
  rw [hbps]
  have hm : (512 + 2 ^ 32 - 1) % 2 ^ 32 = 511 := by norm_num
  rw [hm, sector_mask]
  by_cases h0 : 0 ≤ offset
  · rw [ULONGLONG_of_nonneg h0 (by omega)]
    simp only [h0, true_and]
    have : ¬ offset < 0 := by omega
    simp only [this, false_or, ite_eq_right_iff, Bool.false_eq_true, imp_false, not_or,
      not_lt, gt_iff_lt, ne_eq, not_not]
  · have : offset < 0 := by omega
    simp [this, h0]

/-- Without wrap-around `check_parameters` is the bounds and alignment test over the
integers. -/
theorem check_parameters_eq_true_iff_of_lt (device_extension : DEVICE_EXTENSION) (offset : Int)
    (length : Nat) (hbps : device_extension.disk_geometry.BytesPerSector = 512)
    (hoff : offset < 2 ^ 63) (hlen : length < 2 ^ 63) :
    check_parameters device_extension offset length = true
      ↔ 0 ≤ offset
        ∧ offset + (length : Int) ≤ (device_extension.disk_info.disk_size : Int)
        ∧ length % 512 = 0 := by
  rw [check_parameters_eq_true_iff device_extension offset length hbps hoff]
  constructor
  · rintro ⟨h0, h1, h2⟩
    refine ⟨h0, ?_, h2⟩
    rw [Nat.mod_eq_of_lt (by omega)] at h1
    omega
  · rintro ⟨h0, h1, h2⟩
    refine ⟨h0, ?_, h2⟩
    rw [Nat.mod_eq_of_lt (by omega)]
    omega

/-- A request inside a 32-bit disk passes `check_parameters`, and the low part of its
offset is the offset. -/
theorem check_parameters_of_in_bounds (device_extension : DEVICE_EXTENSION) (offset : Int)
    (length : Nat) (hbps : device_extension.disk_geometry.BytesPerSector = 512)
    (hsize : device_extension.disk_info.disk_size < 2 ^ 32)
    (h0 : 0 ≤ offset)
    (h1 : offset + (length : Int) ≤ (device_extension.disk_info.disk_size : Int))
    (h2 : length % 512 = 0) :
    check_parameters device_extension offset length = true
      ∧ LowPart offset = offset.toNat := by
  constructor
  · exact (check_parameters_eq_true_iff_of_lt device_extension offset length hbps
      (by omega) (by omega)).2 ⟨h0, h1, h2⟩
  · exact LowPart_nonneg h0 (by omega)

/-! ### The device `new_device` -/

theorem new_device_BytesPerSector (disk_size : Nat) (fill : UCHAR) :
    (new_device disk_size fill).disk_geometry.BytesPerSector = 512 := rfl

theorem new_device_disk_size (disk_size : Nat) (fill : UCHAR) :
    (new_device disk_size fill).disk_info.disk_size = disk_size := rfl

theorem new_device_image_length (disk_size : Nat) (fill : UCHAR) :
    (new_device disk_size fill).disk_image.length = disk_size :=
  List.length_replicate disk_size fill

theorem check_parameters_new_device (disk_size : Nat) (fill : UCHAR) (offset : Int)
    (length : Nat) :
    check_parameters (new_device disk_size fill) offset length
      = if offset < 0 ∨ (ULONGLONG_of offset + length) % 2 ^ 64 > disk_size
            ∨ length &&& 511 ≠ 0 then false else true := by
  have hm : (512 + 2 ^ 32 - 1) % 2 ^ 32 = 511 := by norm_num
  unfold check_parameters
  rw [new_device_disk_size, new_device_BytesPerSector, hm]

/-! ### Copies -/

theorem RtlCopyMemory_length (destination source : List UCHAR) (start : Nat)
    (h : start + source.length ≤ destination.length) :
    (RtlCopyMemory destination start source).length = destination.length := by
  simp only [RtlCopyMemory, List.length_append, List.length_take, List.length_drop]
  omega

theorem RtlCopyMemory_read_back (destination source : List UCHAR) (start : Nat)
    (h : start + source.length ≤ destination.length) :
    ((RtlCopyMemory destination start source).drop start).take source.length = source := by
  have h1 : (destination.take start).length = start := by
    rw [List.length_take]; omega
  unfold RtlCopyMemory
  rw [List.append_assoc, List.drop_append_eq_append_drop, h1, Nat.sub_self, List.drop_zero,
    List.drop_of_length_le (by omega), List.nil_append, List.take_left']
  rfl

theorem RtlCopyMemory_whole (destination source : List UCHAR)
    (h : destination.length = source.length) :
    RtlCopyMemory destination 0 source = source := by
  simp [RtlCopyMemory, List.drop_of_length_le (Nat.le_of_eq h)]

/-! ### The handlers on rejected and on accepted requests -/

theorem EvtIoRead_of_rejected (device_extension : DEVICE_EXTENSION) (request : WDFREQUEST)
    (length : Nat)
    (h : check_parameters device_extension request.DeviceOffset length = false) :
    EvtIoRead device_extension request length
      = some (device_extension,
          WdfRequestCompleteWithInformation request STATUS_INVALID_PARAMETER length) := by
  simp [EvtIoRead, WdfRequestGetParameters, h]

theorem EvtIoWrite_of_rejected (device_extension : DEVICE_EXTENSION) (request : WDFREQUEST)
    (length : Nat)
    (h : check_parameters device_extension request.DeviceOffset length = false) :
    EvtIoWrite device_extension request length
      = some (device_extension,
          WdfRequestCompleteWithInformation request STATUS_INVALID_PARAMETER length) := by
  simp [EvtIoWrite, WdfRequestGetParameters, h]

theorem EvtIoRead_of_accepted (device_extension : DEVICE_EXTENSION) (request : WDFREQUEST)
    (length : Nat)
    (hcheck : check_parameters device_extension request.DeviceOffset length = true)
    (hbuf : request.OutputFailure = none) (hlen : length ≤ request.OutputBuffer.length)
    (hin : LowPart request.DeviceOffset + length ≤ device_extension.disk_image.length) :
    EvtIoRead device_extension request length
      = some (device_extension,
          WdfRequestCompleteWithInformation
            { request with
              OutputBuffer := RtlCopyMemory request.OutputBuffer 0
                ((device_extension.disk_image.drop (LowPart request.DeviceOffset)).take length) }
            STATUS_SUCCESS length) := by
  have h1 : ¬ length > request.OutputBuffer.length := by omega
  have h2 : ¬ LowPart request.DeviceOffset + length > device_extension.disk_image.length := by
    omega
  simp [EvtIoRead, WdfRequestGetParameters, hcheck, WdfRequestRetrieveOutputMemory, hbuf,
    WdfMemoryCopyFromBuffer, h1, h2]

theorem EvtIoWrite_of_accepted (device_extension : DEVICE_EXTENSION) (request : WDFREQUEST)
    (length : Nat)
    (hcheck : check_parameters device_extension request.DeviceOffset length = true)
    (hbuf : request.InputFailure = none) (hlen : length ≤ request.InputBuffer.length)
    (hin : LowPart request.DeviceOffset + length ≤ device_extension.disk_image.length) :
    EvtIoWrite device_extension request length
      = some ({ device_extension with
                disk_image := RtlCopyMemory device_extension.disk_image
                  (LowPart request.DeviceOffset) (request.InputBuffer.take length) },
          WdfRequestCompleteWithInformation request STATUS_SUCCESS length) := by
  have h1 : ¬ length > request.InputBuffer.length := by omega
  have h2 : ¬ LowPart request.DeviceOffset + length > device_extension.disk_image.length := by
    omega
  simp [EvtIoWrite, WdfRequestGetParameters, hcheck, WdfRequestRetrieveInputMemory, hbuf,
    WdfMemoryCopyToBuffer, h1, h2]

theorem EvtIoWrite_of_short_buffer (device_extension : DEVICE_EXTENSION) (request : WDFREQUEST)
    (length : Nat)
    (hcheck : check_parameters device_extension request.DeviceOffset length = true)
    (hbuf : request.InputFailure = none) (hlen : request.InputBuffer.length < length) :
    EvtIoWrite device_extension request length
      = some (device_extension,
          WdfRequestCompleteWithInformation request STATUS_BUFFER_TOO_SMALL length) := by
  have h1 : length > request.InputBuffer.length := hlen
  simp [EvtIoWrite, WdfRequestGetParameters, hcheck, WdfRequestRetrieveInputMemory, hbuf,
    WdfMemoryCopyToBuffer, h1]

/-- C2: a read or write request that violates the bounds and alignment precondition
(`offset < 0`, or `offset + length > disk_size` over the integers, or `length` not a
multiple of 512) is completed by `EvtIoRead`, resp. `EvtIoWrite`, with
`STATUS_INVALID_PARAMETER`, and the handler returns the device extension it was given, so
the disk image is byte for byte what it was (the request's buffers too). The offset is a
signed 64-bit value and the length is below `2 ^ 63`: the framework hands the handlers the
length of the request's own buffer, and no buffer spans half of the address space. -/
theorem violating_request_rejected (device_extension : DEVICE_EXTENSION)
    (request : WDFREQUEST) (length : Nat)
    (hbps : device_extension.disk_geometry.BytesPerSector = 512)
    (hoff : request.DeviceOffset < 2 ^ 63) (hlen : length < 2 ^ 63)
    (hviol : request.DeviceOffset < 0
      ∨ (device_extension.disk_info.disk_size : Int) < request.DeviceOffset + (length : Int)
      ∨ length % 512 ≠ 0) :
    EvtIoRead device_extension request length
        = some (device_extension,
            WdfRequestCompleteWithInformation request STATUS_INVALID_PARAMETER length)
      ∧ EvtIoWrite device_extension request length
        = some (device_extension,
            WdfRequestCompleteWithInformation request STATUS_INVALID_PARAMETER length) := by
  have hc : check_parameters device_extension request.DeviceOffset length = false := by
    rw [← Bool.not_eq_true,
      check_parameters_eq_true_iff_of_lt device_extension _ length hbps hoff hlen]
    rintro ⟨h0, h1, h2⟩
    rcases hviol with h | h | h
    · omega
    · omega
    · exact h h2
  exact ⟨EvtIoRead_of_rejected _ _ _ hc, EvtIoWrite_of_rejected _ _ _ hc⟩

/-- Witness of C2: a 512-byte request at offset 1,048,576, the end of the default disk. -/
theorem violating_request_rejected_witness :
    EvtIoRead (new_device DEFAULT_DISK_SIZE 0) (read_request 1048576 (List.replicate 512 0)) 512
        = some (new_device DEFAULT_DISK_SIZE 0,
            WdfRequestCompleteWithInformation (read_request 1048576 (List.replicate 512 0))
              STATUS_INVALID_PARAMETER 512)
      ∧ EvtIoWrite (new_device DEFAULT_DISK_SIZE 0)
          (read_request 1048576 (List.replicate 512 0)) 512
        = some (new_device DEFAULT_DISK_SIZE 0,
            WdfRequestCompleteWithInformation (read_request 1048576 (List.replicate 512 0))
              STATUS_INVALID_PARAMETER 512) :=
  violating_request_rejected (new_device DEFAULT_DISK_SIZE 0)
    (read_request 1048576 (List.replicate 512 0)) 512
    (new_device_BytesPerSector _ _) (by decide) (by decide)
    (Or.inr (Or.inl (by rw [new_device_disk_size]; decide)))

/-! ### Read and write: the claims -/

/-- C1: round trip. On a device with 512-byte sectors whose image has `disk_size < 2 ^ 32`
bytes, for `0 ≤ offset`, `offset + length ≤ disk_size`, `length` a multiple of 512 and a
caller buffer of exactly `length` bytes, `EvtIoWrite` of that buffer at `offset` completes
with `(STATUS_SUCCESS, length)`, and `EvtIoRead` of the same offset and length on the
resulting device, into a buffer of `length` bytes, completes with
`(STATUS_SUCCESS, length)` and leaves exactly the written bytes in the buffer. -/
theorem write_read_round_trip (device_extension : DEVICE_EXTENSION) (w r : WDFREQUEST)
    (length : Nat)
    (hbps : device_extension.disk_geometry.BytesPerSector = 512)
    (himg : device_extension.disk_image.length = device_extension.disk_info.disk_size)
    (hsize : device_extension.disk_info.disk_size < 2 ^ 32)
    (h0 : 0 ≤ w.DeviceOffset)
    (h1 : w.DeviceOffset + (length : Int) ≤ (device_extension.disk_info.disk_size : Int))
    (h2 : length % 512 = 0)
    (hw : w.InputFailure = none) (hdata : w.InputBuffer.length = length)
    (hr : r.OutputFailure = none) (hout : r.OutputBuffer.length = length)
    (hoff : r.DeviceOffset = w.DeviceOffset) :
    ∃ written w1 r1,
      EvtIoWrite device_extension w length = some (written, w1)
        ∧ w1.Completed = w.Completed ++ [(STATUS_SUCCESS, length)]
        ∧ EvtIoRead written r length = some (written, r1)
        ∧ r1.Completed = r.Completed ++ [(STATUS_SUCCESS, length)]
        ∧ r1.OutputBuffer = w.InputBuffer := by
  obtain ⟨hc, hlow⟩ := check_parameters_of_in_bounds device_extension w.DeviceOffset length
    hbps hsize h0 h1 h2
  have hin : LowPart w.DeviceOffset + length ≤ device_extension.disk_image.length := by
    rw [hlow, himg]; omega
  have hwrite := EvtIoWrite_of_accepted device_extension w length hc hw (by omega) hin
  have htake : w.InputBuffer.take length = w.InputBuffer := by
    rw [← hdata]; simp
  rw [htake] at hwrite
  have hin' : LowPart w.DeviceOffset + w.InputBuffer.length
      ≤ device_extension.disk_image.length := by
    rw [hdata]; exact hin
  have hc' : check_parameters
      { device_extension with
        disk_image := RtlCopyMemory device_extension.disk_image (LowPart w.DeviceOffset)
          w.InputBuffer }
      r.DeviceOffset length = true := by
    rw [hoff]; exact hc
  have hread := EvtIoRead_of_accepted
    { device_extension with
      disk_image := RtlCopyMemory device_extension.disk_image (LowPart w.DeviceOffset)
        w.InputBuffer }
    r length hc' hr (by omega)
    (by
      rw [hoff]
      show LowPart w.DeviceOffset + length ≤ (RtlCopyMemory _ _ _).length
      rw [RtlCopyMemory_length _ _ _ hin']
      exact hin)
  refine ⟨_, _, _, hwrite, rfl, hread, rfl, ?_⟩
  show RtlCopyMemory r.OutputBuffer 0 _ = w.InputBuffer
  have hback : ((RtlCopyMemory device_extension.disk_image (LowPart w.DeviceOffset)
      w.InputBuffer).drop (LowPart r.DeviceOffset)).take length = w.InputBuffer := by
    rw [hoff, ← hdata]
    exact RtlCopyMemory_read_back _ _ _ hin'
  rw [hback]
  exact RtlCopyMemory_whole r.OutputBuffer w.InputBuffer (by omega)

/-- Witness of C1: the scenario of the specification. On the default 1,048,576-byte disk,
512 bytes of `0xAB` written at offset 0 are read back unchanged. -/
theorem write_read_round_trip_witness :
    ∃ written w1 r1,
      EvtIoWrite (new_device DEFAULT_DISK_SIZE 0) (write_request 0 (List.replicate 512 0xAB)) 512
          = some (written, w1)
        ∧ w1.Completed = [] ++ [(STATUS_SUCCESS, 512)]
        ∧ EvtIoRead written (read_request 0 (List.replicate 512 0)) 512 = some (written, r1)
        ∧ r1.Completed = [] ++ [(STATUS_SUCCESS, 512)]
        ∧ r1.OutputBuffer = List.replicate 512 0xAB :=
  write_read_round_trip (new_device DEFAULT_DISK_SIZE 0)
    (write_request 0 (List.replicate 512 0xAB)) (read_request 0 (List.replicate 512 0)) 512
    (new_device_BytesPerSector _ _)
    (by rw [new_device_image_length, new_device_disk_size])
    (by rw [new_device_disk_size]; decide)
    (by decide)
    (by rw [new_device_disk_size]; decide)
    (by decide) rfl (List.length_replicate _ _) rfl (List.length_replicate _ _) rfl

/-- Beyond the length range of a request buffer: were `EvtIoWrite` called on the default disk
at offset 512 with the length `2 ^ 64 - 512`, then `offset + length = 2 ^ 64 > disk_size`,
yet `check_parameters` would accept (the 64-bit sum wraps to 0) and the handler would go on
to the copy and report its status instead of `STATUS_INVALID_PARAMETER`. -/
theorem EvtIoWrite_wrapped_sum_not_rejected :
    ¬ ((512 : Int) + ((2 ^ 64 - 512 : Nat) : Int) ≤ (DEFAULT_DISK_SIZE : Int))
      ∧ check_parameters (new_device DEFAULT_DISK_SIZE 0) 512 (2 ^ 64 - 512) = true
      ∧ (EvtIoWrite (new_device DEFAULT_DISK_SIZE 0)
            (write_request 512 (List.replicate 512 0xAB)) (2 ^ 64 - 512)).map
          (fun result => result.2.Completed)
          = some [(STATUS_BUFFER_TOO_SMALL, 2 ^ 64 - 512)] := by
  have hc : check_parameters (new_device DEFAULT_DISK_SIZE 0) 512 (2 ^ 64 - 512) = true := by
    rw [check_parameters_new_device]; decide
  refine ⟨by decide, hc, ?_⟩
  rw [EvtIoWrite_of_short_buffer _ _ _ hc rfl
    (by show (List.replicate 512 171).length < _; rw [List.length_replicate]; decide)]
  rfl

/-- C3 fails as stated: a 512-byte read at offset -512 violates the precondition and is
completed with `STATUS_INVALID_PARAMETER` and information 512, not 0. -/
theorem rejected_read_reports_length :
    check_parameters (new_device DEFAULT_DISK_SIZE 0) (-512) 512 = false
      ∧ (EvtIoRead (new_device DEFAULT_DISK_SIZE 0)
            (read_request (-512) (List.replicate 512 0)) 512).map
          (fun result => result.2.Completed)
          = some [(STATUS_INVALID_PARAMETER, 512)]
      ∧ ¬ ((EvtIoRead (new_device DEFAULT_DISK_SIZE 0)
            (read_request (-512) (List.replicate 512 0)) 512).map
          (fun result => result.2.Completed.map Prod.snd)
          = some [0]) := by
  have hc : check_parameters (new_device DEFAULT_DISK_SIZE 0) (-512) 512 = false := by
    rw [check_parameters_new_device]; decide
  refine ⟨hc, ?_, ?_⟩
  · rw [EvtIoRead_of_rejected _ _ _ (by exact hc)]
    rfl
  · rw [EvtIoRead_of_rejected _ _ _ (by exact hc)]
    simp only [Option.map_some', WdfRequestCompleteWithInformation, read_request,
      List.nil_append, List.map_cons, List.map_nil]
    decide

/-- C3 as amended: a read or write request that `check_parameters` rejects is completed
with `STATUS_INVALID_PARAMETER` and an information value equal to the requested length,
the device extension staying as it was. -/
theorem rejected_request_information (device_extension : DEVICE_EXTENSION)
    (request : WDFREQUEST) (length : Nat)
    (h : check_parameters device_extension request.DeviceOffset length = false) :
    (∃ r1, EvtIoRead device_extension request length = some (device_extension, r1)
        ∧ r1.Completed = request.Completed ++ [(STATUS_INVALID_PARAMETER, length)])
      ∧ (∃ w1, EvtIoWrite device_extension request length = some (device_extension, w1)
        ∧ w1.Completed = request.Completed ++ [(STATUS_INVALID_PARAMETER, length)]) :=
  ⟨⟨_, EvtIoRead_of_rejected device_extension request length h, rfl⟩,
   ⟨_, EvtIoWrite_of_rejected device_extension request length h, rfl⟩⟩

/-- Witness of C3 as amended: a 513-byte request at offset 0 of the default disk. -/
theorem rejected_request_information_witness :
    (∃ r1, EvtIoRead (new_device DEFAULT_DISK_SIZE 0) (read_request 0 []) 513
          = some (new_device DEFAULT_DISK_SIZE 0, r1)
        ∧ r1.Completed = [] ++ [(STATUS_INVALID_PARAMETER, 513)])
      ∧ (∃ w1, EvtIoWrite (new_device DEFAULT_DISK_SIZE 0) (read_request 0 []) 513
          = some (new_device DEFAULT_DISK_SIZE 0, w1)
        ∧ w1.Completed = [] ++ [(STATUS_INVALID_PARAMETER, 513)]) :=
  rejected_request_information (new_device DEFAULT_DISK_SIZE 0) (read_request 0 []) 513
    (by rw [check_parameters_new_device]; decide)

/-- C5: on a device with 512-byte sectors whose image has `disk_size < 2 ^ 32` bytes, a read
or write request with `0 ≤ offset`, `offset + length ≤ disk_size`, `length` a multiple of
512 and a caller buffer of at least `length` bytes is completed with `STATUS_SUCCESS` and
an information value (bytes transferred) equal to `length`. -/
theorem in_bounds_request_succeeds (device_extension : DEVICE_EXTENSION) (rd wr : WDFREQUEST)
    (length : Nat)
    (hbps : device_extension.disk_geometry.BytesPerSector = 512)
    (himg : device_extension.disk_image.length = device_extension.disk_info.disk_size)
    (hsize : device_extension.disk_info.disk_size < 2 ^ 32)
    (hr0 : 0 ≤ rd.DeviceOffset)
    (hr1 : rd.DeviceOffset + (length : Int) ≤ (device_extension.disk_info.disk_size : Int))
    (hw0 : 0 ≤ wr.DeviceOffset)
    (hw1 : wr.DeviceOffset + (length : Int) ≤ (device_extension.disk_info.disk_size : Int))
    (h2 : length % 512 = 0)
    (hrd : rd.OutputFailure = none) (hrdlen : length ≤ rd.OutputBuffer.length)
    (hwr : wr.InputFailure = none) (hwrlen : length ≤ wr.InputBuffer.length) :
    (∃ rd1, EvtIoRead device_extension rd length = some (device_extension, rd1)
        ∧ rd1.Completed = rd.Completed ++ [(STATUS_SUCCESS, length)])
      ∧ (∃ written wr1, EvtIoWrite device_extension wr length = some (written, wr1)
        ∧ wr1.Completed = wr.Completed ++ [(STATUS_SUCCESS, length)]) := by
  obtain ⟨hcr, hlr⟩ := check_parameters_of_in_bounds device_extension rd.DeviceOffset length
    hbps hsize hr0 hr1 h2
  obtain ⟨hcw, hlw⟩ := check_parameters_of_in_bounds device_extension wr.DeviceOffset length
    hbps hsize hw0 hw1 h2
  refine ⟨⟨_, EvtIoRead_of_accepted device_extension rd length hcr hrd hrdlen ?_, rfl⟩,
    ⟨_, _, EvtIoWrite_of_accepted device_extension wr length hcw hwr hwrlen ?_, rfl⟩⟩
  · rw [hlr, himg]; omega
  · rw [hlw, himg]; omega

/-- Witness of C5: on the default 1,048,576-byte disk a 512-byte read and a 512-byte write
at offset 0 report 512 bytes. -/
theorem in_bounds_request_succeeds_witness :
    (∃ rd1, EvtIoRead (new_device DEFAULT_DISK_SIZE 0) (read_request 0 (List.replicate 512 0)) 512
          = some (new_device DEFAULT_DISK_SIZE 0, rd1)
        ∧ rd1.Completed = [] ++ [(STATUS_SUCCESS, 512)])
      ∧ (∃ written wr1,
          EvtIoWrite (new_device DEFAULT_DISK_SIZE 0)
              (write_request 0 (List.replicate 512 0xAB)) 512 = some (written, wr1)
        ∧ wr1.Completed = [] ++ [(STATUS_SUCCESS, 512)]) :=
  in_bounds_request_succeeds (new_device DEFAULT_DISK_SIZE 0)
    (read_request 0 (List.replicate 512 0)) (write_request 0 (List.replicate 512 0xAB)) 512
    (new_device_BytesPerSector _ _)
    (by rw [new_device_image_length, new_device_disk_size])
    (by rw [new_device_disk_size]; decide)
    (by decide) (by rw [new_device_disk_size]; decide)
    (by decide) (by rw [new_device_disk_size]; decide)
    (by decide) rfl (by show 512 ≤ (List.replicate 512 0).length; rw [List.length_replicate])
    rfl (by show 512 ≤ (List.replicate 512 171).length; rw [List.length_replicate])

/-! ### Device control: the claims -/

/-- C6: for each control operation with a fixed-size record (get-partition-info,
set-partition-info on its input buffer, get-drive-geometry, both get-media-types codes,
query-device-name, query-unique-id, get-length-info, get-hotplug-info) and every supplied
buffer shorter than the record, `EvtIoDeviceControl` completes the request once, with
`STATUS_BUFFER_TOO_SMALL` and the record's structure size, and leaves the device extension
(image, size, geometry, partition type) and the request's buffers as they were. -/
theorem undersized_buffer_too_small (device_extension : DEVICE_EXTENSION)
    (request : WDFREQUEST) (code size : Nat) (on_input : Bool)
    (hop : (code, size, on_input) ∈ fixed_size_operations)
    (hshort : supplied_length request on_input < size) :
    device_control device_extension request code
      = (device_extension,
          WdfRequestCompleteWithInformation request STATUS_BUFFER_TOO_SMALL size) := by
  simp only [fixed_size_operations, List.mem_cons, Prod.mk.injEq, List.mem_singleton,
    List.not_mem_nil, or_false] at hop
  rcases hop with h | h | h | h | h | h | h | h | h <;>
    obtain ⟨rfl, rfl, rfl⟩ := h <;>
    simp only [supplied_length, if_true, if_false, Bool.false_eq_true] at hshort <;>
    simp [device_control, EvtIoDeviceControl, EvtIoDeviceControl_switch, CTL_CODE,
      WdfRequestGetParameters, query_device_name, query_unique_id, get_length_info,
      get_hotplug_info, hshort]

/-- Witness of C6: the scenario of the specification, get-drive-geometry with a 0-byte
buffer on the default disk reports the geometry structure size. -/
theorem undersized_buffer_too_small_witness :
    device_control (new_device DEFAULT_DISK_SIZE 0) (control_request [] [])
        IOCTL_DISK_GET_DRIVE_GEOMETRY
      = (new_device DEFAULT_DISK_SIZE 0,
          WdfRequestCompleteWithInformation (control_request [] []) STATUS_BUFFER_TOO_SMALL
            sizeof_DISK_GEOMETRY) :=
  undersized_buffer_too_small (new_device DEFAULT_DISK_SIZE 0) (control_request [] [])
    IOCTL_DISK_GET_DRIVE_GEOMETRY sizeof_DISK_GEOMETRY false
    (by simp [fixed_size_operations]) (by decide)

/-! ### The two identity queries -/

theorem nt_name_Length : nt_name.Length = 30 := rfl

theorem nt_name_Buffer_length : nt_name.Buffer.length = 30 := rfl

theorem nt_name_Buffer_take : nt_name.Buffer.take nt_name.Length = nt_name.Buffer := rfl

theorem load_store_USHORT (buffer : List UCHAR) (value : Nat) (h : value < 65536) :
    load_USHORT (store_USHORT buffer 0 value) 0 = value := by
  simp only [load_USHORT, store_USHORT, RtlCopyMemory, List.take_zero, List.nil_append,
    List.cons_append, List.getD_cons_zero, Nat.zero_add, List.getD_cons_succ]
  omega

theorem identity_header_length_field (buffer : List UCHAR) :
    load_USHORT (identity_header buffer) 0 = nt_name.Length :=
  load_store_USHORT _ _ (by rw [nt_name_Length]; decide)

theorem identity_header_length (buffer : List UCHAR) (h : 4 ≤ buffer.length) :
    (identity_header buffer).length = buffer.length := by
  simp only [identity_header, store_USHORT, RtlZeroMemory, RtlCopyMemory, List.take_zero,
    List.nil_append, List.length_append, List.length_drop, List.length_replicate,
    List.length_cons, List.length_nil, Nat.zero_add, sizeof_MOUNTDEV_NAME]
  omega

theorem identity_record_take (buffer : List UCHAR) (h : 32 ≤ buffer.length) :
    (identity_record buffer).take (sizeof_USHORT + nt_name.Length)
      = [nt_name.Length % 256, nt_name.Length / 256 % 256] ++ nt_name.Buffer := by
  have hlen := identity_header_length buffer (by omega)
  have h2 : (identity_header buffer).take 2
      = [nt_name.Length % 256, nt_name.Length / 256 % 256] := by
    simp [identity_header, store_USHORT, RtlCopyMemory]
  unfold identity_record RtlCopyMemory
  rw [nt_name_Buffer_take, h2]
  have hl : ([nt_name.Length % 256, nt_name.Length / 256 % 256] ++ nt_name.Buffer).length
      = sizeof_USHORT + nt_name.Length := rfl
  rw [← hl, List.take_left']
  rfl

theorem device_control_query_too_small (device_extension : DEVICE_EXTENSION)
    (request : WDFREQUEST) (code : Nat)
    (hcode : code = IOCTL_MOUNTDEV_QUERY_DEVICE_NAME ∨ code = IOCTL_MOUNTDEV_QUERY_UNIQUE_ID)
    (h4 : request.OutputBuffer.length < 4) :
    device_control device_extension request code
      = (device_extension,
          WdfRequestCompleteWithInformation request STATUS_BUFFER_TOO_SMALL 4) := by
  rcases hcode with rfl | rfl <;>
    simp [device_control, EvtIoDeviceControl, EvtIoDeviceControl_switch, CTL_CODE,
      WdfRequestGetParameters, query_device_name, query_unique_id, h4]

theorem device_control_query_overflow (device_extension : DEVICE_EXTENSION)
    (request : WDFREQUEST) (code : Nat)
    (hcode : code = IOCTL_MOUNTDEV_QUERY_DEVICE_NAME ∨ code = IOCTL_MOUNTDEV_QUERY_UNIQUE_ID)
    (hfail : request.OutputFailure = none)
    (h4 : 4 ≤ request.OutputBuffer.length) (h32 : request.OutputBuffer.length < 32) :
    device_control device_extension request code
      = (device_extension,
          WdfRequestCompleteWithInformation
            { request with OutputBuffer := identity_header request.OutputBuffer }
            STATUS_BUFFER_OVERFLOW 4) := by
  have h4' : ¬ request.OutputBuffer.length < 4 := by omega
  have h32' : request.OutputBuffer.length < 2 + nt_name.Length := by
    rw [nt_name_Length]; omega
  rcases hcode with rfl | rfl <;>
    simp [device_control, EvtIoDeviceControl, EvtIoDeviceControl_switch, CTL_CODE,
      WdfRequestGetParameters, query_device_name, query_unique_id,
      WdfRequestRetrieveOutputBuffer, hfail, h4', h32', identity_header]

theorem device_control_query_success (device_extension : DEVICE_EXTENSION)
    (request : WDFREQUEST) (code : Nat)
    (hcode : code = IOCTL_MOUNTDEV_QUERY_DEVICE_NAME ∨ code = IOCTL_MOUNTDEV_QUERY_UNIQUE_ID)
    (hfail : request.OutputFailure = none) (h32 : 32 ≤ request.OutputBuffer.length) :
    device_control device_extension request code
      = (device_extension,
          WdfRequestCompleteWithInformation
            { request with OutputBuffer := identity_record request.OutputBuffer }
            STATUS_SUCCESS (sizeof_USHORT + nt_name.Length)) := by
  have h4' : ¬ request.OutputBuffer.length < 4 := by omega
  have h32' : ¬ request.OutputBuffer.length < 2 + nt_name.Length := by
    rw [nt_name_Length]; omega
  rcases hcode with rfl | rfl <;>
    simp [device_control, EvtIoDeviceControl, EvtIoDeviceControl_switch, CTL_CODE,
      WdfRequestGetParameters, query_device_name, query_unique_id,
      WdfRequestRetrieveOutputBuffer, hfail, h4', h32', identity_header, identity_record]

theorem completed_append_inj (done : List (NTSTATUS × Nat)) (a b : NTSTATUS × Nat) :
    done ++ [a] = done ++ [b] ↔ a = b := by
  simp

/-- With a retrievable output buffer, an identity query succeeds exactly when the buffer
has at least 32 bytes. -/
theorem device_control_query_success_iff (device_extension : DEVICE_EXTENSION)
    (request : WDFREQUEST) (code : Nat)
    (hcode : code = IOCTL_MOUNTDEV_QUERY_DEVICE_NAME ∨ code = IOCTL_MOUNTDEV_QUERY_UNIQUE_ID)
    (hfail : request.OutputFailure = none) :
    (∃ n, (device_control device_extension request code).2.Completed
        = request.Completed ++ [(STATUS_SUCCESS, n)])
      ↔ 32 ≤ request.OutputBuffer.length := by
  constructor
  · rintro ⟨n, hn⟩
    by_contra hlt
    by_cases h4 : request.OutputBuffer.length < 4
    · rw [device_control_query_too_small _ _ _ hcode h4] at hn
      simp [WdfRequestCompleteWithInformation] at hn
    · rw [device_control_query_overflow _ _ _ hcode hfail (by omega) (by omega)] at hn
      simp [WdfRequestCompleteWithInformation] at hn
  · intro h32
    exact ⟨_, by rw [device_control_query_success _ _ _ hcode hfail h32]; rfl⟩

/-- C7: for query-device-name and query-unique-id, when the output buffer holds the header
structure (`sizeof(MOUNTDEV_NAME)`, resp. `sizeof(MOUNTDEV_UNIQUE_ID)`) but is shorter than
`sizeof(USHORT) +` the byte length of the device name, the request is completed with
`STATUS_BUFFER_OVERFLOW`, the length field of the header reads back as the byte length of
the device name, and `sizeof(USHORT) +` that field is the threshold of success: the same
operation, on any device and any request with a retrievable buffer, completes with
`STATUS_SUCCESS` exactly when the buffer has at least that many bytes. -/
theorem identity_query_header_only (device_extension : DEVICE_EXTENSION)
    (request : WDFREQUEST) (code : Nat)
    (hcode : (code = IOCTL_MOUNTDEV_QUERY_DEVICE_NAME
          ∧ sizeof_MOUNTDEV_NAME ≤ request.OutputBuffer.length)
        ∨ (code = IOCTL_MOUNTDEV_QUERY_UNIQUE_ID
          ∧ sizeof_MOUNTDEV_UNIQUE_ID ≤ request.OutputBuffer.length))
    (hfail : request.OutputFailure = none)
    (hshort : request.OutputBuffer.length < sizeof_USHORT + nt_name.Length) :
    (device_control device_extension request code).1 = device_extension
      ∧ (device_control device_extension request code).2.Completed
          = request.Completed ++ [(STATUS_BUFFER_OVERFLOW, sizeof_MOUNTDEV_NAME)]
      ∧ load_USHORT (device_control device_extension request code).2.OutputBuffer 0
          = nt_name.Length
      ∧ ∀ (other_device : DEVICE_EXTENSION) (other : WDFREQUEST),
          other.OutputFailure = none →
          ((∃ n, (device_control other_device other code).2.Completed
              = other.Completed ++ [(STATUS_SUCCESS, n)])
            ↔ sizeof_USHORT
                + load_USHORT (device_control device_extension request code).2.OutputBuffer 0
              ≤ other.OutputBuffer.length) := by
  have hc : code = IOCTL_MOUNTDEV_QUERY_DEVICE_NAME ∨ code = IOCTL_MOUNTDEV_QUERY_UNIQUE_ID :=
    hcode.imp And.left And.left
  have h4 : 4 ≤ request.OutputBuffer.length := by
    rcases hcode with h | h <;> exact h.2
  have h32 : request.OutputBuffer.length < 32 := by
    rw [nt_name_Length] at hshort; exact hshort
  rw [device_control_query_overflow device_extension request code hc hfail h4 h32]
  refine ⟨rfl, rfl, identity_header_length_field _, ?_⟩
  intro other_device other hother
  rw [device_control_query_success_iff other_device other code hc hother]
  show _ ↔ 2 + load_USHORT (identity_header request.OutputBuffer) 0 ≤ _
  rw [identity_header_length_field, nt_name_Length]

/-- Witness of C7: query-device-name with a 4-byte buffer, and the threshold tested on a
request with a 32-byte buffer. -/
theorem identity_query_header_only_witness :
    (device_control (new_device DEFAULT_DISK_SIZE 0) (control_request [7, 7, 7, 7] [])
        IOCTL_MOUNTDEV_QUERY_DEVICE_NAME).2.Completed
        = [] ++ [(STATUS_BUFFER_OVERFLOW, sizeof_MOUNTDEV_NAME)]
      ∧ load_USHORT (device_control (new_device DEFAULT_DISK_SIZE 0)
          (control_request [7, 7, 7, 7] []) IOCTL_MOUNTDEV_QUERY_DEVICE_NAME).2.OutputBuffer 0
        = nt_name.Length
      ∧ ((∃ n, (device_control (new_device DEFAULT_DISK_SIZE 0)
              (control_request (List.replicate 32 0) [])
              IOCTL_MOUNTDEV_QUERY_DEVICE_NAME).2.Completed = [] ++ [(STATUS_SUCCESS, n)])
          ↔ sizeof_USHORT
              + load_USHORT (device_control (new_device DEFAULT_DISK_SIZE 0)
                  (control_request [7, 7, 7, 7] [])
                  IOCTL_MOUNTDEV_QUERY_DEVICE_NAME).2.OutputBuffer 0
            ≤ (List.replicate 32 0).length) :=
  have h := identity_query_header_only (new_device DEFAULT_DISK_SIZE 0)
    (control_request [7, 7, 7, 7] []) IOCTL_MOUNTDEV_QUERY_DEVICE_NAME
    (Or.inl ⟨rfl, by decide⟩) rfl (by decide)
  ⟨h.2.1, h.2.2.1,
    h.2.2.2 (new_device DEFAULT_DISK_SIZE 0) (control_request (List.replicate 32 0) []) rfl⟩

/-- C8: for query-device-name and query-unique-id on an output buffer that fits the full
record, the request is completed with `STATUS_SUCCESS` and the byte count
`sizeof(USHORT) +` byte length of the device name; the record is that length, low byte
first, followed by the bytes of `NT_DEVICE_NAME`; and any two such calls (either code, any
device extensions, any requests) give the same status, byte count and record bytes, the
whole resulting request being the same when the request is. -/
theorem identity_query_full_record (d1 d2 : DEVICE_EXTENSION) (r1 r2 : WDFREQUEST)
    (c1 c2 : Nat)
    (hc1 : c1 = IOCTL_MOUNTDEV_QUERY_DEVICE_NAME ∨ c1 = IOCTL_MOUNTDEV_QUERY_UNIQUE_ID)
    (hc2 : c2 = IOCTL_MOUNTDEV_QUERY_DEVICE_NAME ∨ c2 = IOCTL_MOUNTDEV_QUERY_UNIQUE_ID)
    (hf1 : r1.OutputFailure = none) (hf2 : r2.OutputFailure = none)
    (h1 : sizeof_USHORT + nt_name.Length ≤ r1.OutputBuffer.length)
    (h2 : sizeof_USHORT + nt_name.Length ≤ r2.OutputBuffer.length) :
    (device_control d1 r1 c1).1 = d1
      ∧ (device_control d1 r1 c1).2.Completed
          = r1.Completed ++ [(STATUS_SUCCESS, sizeof_USHORT + nt_name.Length)]
      ∧ (device_control d1 r1 c1).2.OutputBuffer.take (sizeof_USHORT + nt_name.Length)
          = [nt_name.Length % 256, nt_name.Length / 256 % 256] ++ wide_bytes NT_DEVICE_NAME
      ∧ load_USHORT (device_control d1 r1 c1).2.OutputBuffer 0 = nt_name.Length
      ∧ (device_control d2 r2 c2).2.Completed
          = r2.Completed ++ [(STATUS_SUCCESS, sizeof_USHORT + nt_name.Length)]
      ∧ (device_control d2 r2 c2).2.OutputBuffer.take (sizeof_USHORT + nt_name.Length)
          = (device_control d1 r1 c1).2.OutputBuffer.take (sizeof_USHORT + nt_name.Length)
      ∧ (r2 = r1 → (device_control d2 r2 c2).2 = (device_control d1 r1 c1).2) := by
  have h1' : 32 ≤ r1.OutputBuffer.length := by rw [nt_name_Length] at h1; exact h1
  have h2' : 32 ≤ r2.OutputBuffer.length := by rw [nt_name_Length] at h2; exact h2
  rw [device_control_query_success d1 r1 c1 hc1 hf1 h1',
    device_control_query_success d2 r2 c2 hc2 hf2 h2']
  have hfield : load_USHORT (identity_record r1.OutputBuffer) 0 = nt_name.Length := by
    have ht := identity_record_take r1.OutputBuffer h1'
    have h0 : (identity_record r1.OutputBuffer).getD 0 0 = nt_name.Length % 256 := by
      rw [← List.take_append_drop (sizeof_USHORT + nt_name.Length)
        (identity_record r1.OutputBuffer), ht]
      rfl
    have h1 : (identity_record r1.OutputBuffer).getD 1 0 = nt_name.Length / 256 % 256 := by
      rw [← List.take_append_drop (sizeof_USHORT + nt_name.Length)
        (identity_record r1.OutputBuffer), ht]
      rfl
    unfold load_USHORT
    rw [h0, h1, nt_name_Length]
  refine ⟨rfl, rfl, identity_record_take _ h1', hfield, rfl, ?_, ?_⟩
  · show (identity_record _).take _ = (identity_record _).take _
    rw [identity_record_take _ h1', identity_record_take _ h2']
  · rintro rfl
    rfl

/-- Witness of C8: query-device-name and query-unique-id on two 32-byte buffers of
different contents, on two different devices. -/
theorem identity_query_full_record_witness :
    (device_control (new_device DEFAULT_DISK_SIZE 0) (control_request (List.replicate 32 0) [])
        IOCTL_MOUNTDEV_QUERY_DEVICE_NAME).2.Completed
        = [] ++ [(STATUS_SUCCESS, sizeof_USHORT + nt_name.Length)]
      ∧ (device_control (new_device DEFAULT_DISK_SIZE 0)
          (control_request (List.replicate 32 0) [])
          IOCTL_MOUNTDEV_QUERY_DEVICE_NAME).2.OutputBuffer.take (sizeof_USHORT + nt_name.Length)
        = [nt_name.Length % 256, nt_name.Length / 256 % 256] ++ wide_bytes NT_DEVICE_NAME
      ∧ (device_control (new_device 512 1) (control_request (List.replicate 40 9) [])
          IOCTL_MOUNTDEV_QUERY_UNIQUE_ID).2.OutputBuffer.take (sizeof_USHORT + nt_name.Length)
        = (device_control (new_device DEFAULT_DISK_SIZE 0)
            (control_request (List.replicate 32 0) [])
            IOCTL_MOUNTDEV_QUERY_DEVICE_NAME).2.OutputBuffer.take
              (sizeof_USHORT + nt_name.Length) :=
  have h := identity_query_full_record (new_device DEFAULT_DISK_SIZE 0) (new_device 512 1)
    (control_request (List.replicate 32 0) []) (control_request (List.replicate 40 9) [])
    IOCTL_MOUNTDEV_QUERY_DEVICE_NAME IOCTL_MOUNTDEV_QUERY_UNIQUE_ID (Or.inl rfl) (Or.inr rfl)
    rfl rfl (by decide) (by decide)
  ⟨h.2.1, h.2.2.1, h.2.2.2.2.2.1⟩

/-- With both buffers retrievable, `EvtIoDeviceControl` completes the request exactly once,
with the status and information of the table `control_completion`. -/
theorem device_control_completion (device_extension : DEVICE_EXTENSION)
    (request : WDFREQUEST) (code : Nat)
    (hout : request.OutputFailure = none) (hin : request.InputFailure = none) :
    (device_control device_extension request code).2.Completed
      = request.Completed
        ++ [control_completion code request.OutputBuffer.length request.InputBuffer.length] := by
  by_cases hrec : code ∈ recognised_codes
  · simp only [recognised_codes, List.mem_cons, List.mem_singleton, List.not_mem_nil,
      or_false] at hrec
    rcases hrec with rfl | rfl | rfl | rfl | rfl | rfl | rfl | rfl | rfl | rfl | rfl | rfl
      | rfl | rfl
    all_goals
      simp only [control_completion, device_control, EvtIoDeviceControl,
        EvtIoDeviceControl_switch, CTL_CODE, WdfRequestGetParameters, query_device_name,
        query_unique_id, get_length_info, get_hotplug_info, WdfRequestRetrieveOutputBuffer,
        WdfRequestRetrieveInputBuffer, hout, hin, WdfRequestCompleteWithInformation]
      norm_num
      try (split_ifs <;> simp_all)
  · simp only [recognised_codes, List.mem_cons, List.mem_singleton, List.not_mem_nil,
      or_false, not_or] at hrec
    obtain ⟨h1, h2, h3, h4, h5, h6, h7, h8, h9, h10, h11, h12, h13, h14⟩ := hrec
    simp [control_completion, device_control, EvtIoDeviceControl, EvtIoDeviceControl_switch,
      h1, h2, h3, h4, h5, h6, h7, h8, h9, h10, h11, h12, h13, h14,
      WdfRequestCompleteWithInformation]

/-- C9 fails as stated: query-device-name with an empty output buffer is completed with
`STATUS_BUFFER_TOO_SMALL` reporting 4 bytes, and the same operation on the same device with
a buffer of exactly 4 bytes is completed with `STATUS_BUFFER_OVERFLOW`, not with success. -/
theorem query_device_name_reported_size_overflows :
    (device_control (new_device DEFAULT_DISK_SIZE 0) (control_request [] [])
        IOCTL_MOUNTDEV_QUERY_DEVICE_NAME).2.Completed = [(STATUS_BUFFER_TOO_SMALL, 4)]
      ∧ (device_control (new_device DEFAULT_DISK_SIZE 0) (control_request [0, 0, 0, 0] [])
        IOCTL_MOUNTDEV_QUERY_DEVICE_NAME).2.Completed = [(STATUS_BUFFER_OVERFLOW, 4)]
      ∧ ¬ ∃ n, (device_control (new_device DEFAULT_DISK_SIZE 0)
          (control_request [0, 0, 0, 0] []) IOCTL_MOUNTDEV_QUERY_DEVICE_NAME).2.Completed
            = [(STATUS_SUCCESS, n)] := by
  rw [device_control_query_too_small _ _ _ (Or.inl rfl) (by decide),
    device_control_query_overflow _ _ _ (Or.inl rfl) rfl (by decide) (by decide)]
  refine ⟨rfl, rfl, ?_⟩
  rintro ⟨n, hn⟩
  simp [WdfRequestCompleteWithInformation, control_request] at hn

/-- C9 as amended: when a control request with retrievable buffers is completed with
`STATUS_BUFFER_TOO_SMALL` reporting size `r`, the same operation on the same device
extension with a buffer of exactly `r` bytes (the input buffer for set-partition-info, the
output buffer otherwise) is completed with `STATUS_SUCCESS`, unless the operation is
query-device-name or query-unique-id, where `r` is the header size and the request is
completed with `STATUS_BUFFER_OVERFLOW`. -/
theorem reported_size_suffices (device_extension : DEVICE_EXTENSION)
    (request other : WDFREQUEST) (code r : Nat)
    (hout : request.OutputFailure = none) (hin : request.InputFailure = none)
    (hout' : other.OutputFailure = none) (hin' : other.InputFailure = none)
    (hsmall : (device_control device_extension request code).2.Completed
      = request.Completed ++ [(STATUS_BUFFER_TOO_SMALL, r)])
    (hr : supplied_length other (decide (code = IOCTL_DISK_SET_PARTITION_INFO)) = r) :
    ∃ n, (device_control device_extension other code).2.Completed
      = other.Completed
        ++ [(if code = IOCTL_MOUNTDEV_QUERY_DEVICE_NAME ∨ code = IOCTL_MOUNTDEV_QUERY_UNIQUE_ID
              then STATUS_BUFFER_OVERFLOW else STATUS_SUCCESS, n)] := by
  have h := device_control_completion device_extension request code hout hin
  have h' := device_control_completion device_extension other code hout' hin'
  rw [h, completed_append_inj] at hsmall
  rw [h']
  refine ⟨(control_completion code other.OutputBuffer.length other.InputBuffer.length).2, ?_⟩
  congr 2
  refine Prod.ext ?_ rfl
  show (control_completion code other.OutputBuffer.length other.InputBuffer.length).1 = _
  by_cases hrec : code ∈ recognised_codes
  · simp only [recognised_codes, List.mem_cons, List.mem_singleton, List.not_mem_nil,
      or_false] at hrec
    rcases hrec with rfl | rfl | rfl | rfl | rfl | rfl | rfl | rfl | rfl | rfl | rfl | rfl
      | rfl | rfl
    all_goals
      simp only [control_completion, CTL_CODE, supplied_length, nt_name_Length] at hsmall hr ⊢
      norm_num at hsmall hr ⊢
      try (split_ifs at hsmall ⊢ <;> simp_all <;> omega)
  · simp only [recognised_codes, List.mem_cons, List.mem_singleton, List.not_mem_nil,
      or_false, not_or] at hrec
    obtain ⟨h1, h2, h3, h4, h5, h6, h7, h8, h9, h10, h11, h12, h13, h14⟩ := hrec
    simp [control_completion, h1, h2, h3, h4, h5, h6, h7, h8, h9, h10, h11, h12, h13, h14]
      at hsmall

/-- Witness of C9 as amended: get-drive-geometry on the default disk; an empty buffer
reports 24 bytes, and a 24-byte buffer is then enough. -/
theorem reported_size_suffices_witness :
    ∃ n, (device_control (new_device DEFAULT_DISK_SIZE 0)
        (control_request (List.replicate 24 0) []) IOCTL_DISK_GET_DRIVE_GEOMETRY).2.Completed
      = [] ++ [(if IOCTL_DISK_GET_DRIVE_GEOMETRY = IOCTL_MOUNTDEV_QUERY_DEVICE_NAME
                  ∨ IOCTL_DISK_GET_DRIVE_GEOMETRY = IOCTL_MOUNTDEV_QUERY_UNIQUE_ID
                then STATUS_BUFFER_OVERFLOW else STATUS_SUCCESS, n)] :=
  reported_size_suffices (new_device DEFAULT_DISK_SIZE 0) (control_request [] [])
    (control_request (List.replicate 24 0) []) IOCTL_DISK_GET_DRIVE_GEOMETRY 24
    rfl rfl rfl rfl (by decide) (by decide)

/-- C10: after `set_disk_geometry` the product
`Cylinders * TracksPerCylinder * SectorsPerTrack * BytesPerSector` is at most `disk_size`,
the three fixed fields are 2, 32 and 512, and a second `set_disk_geometry` changes nothing. -/
theorem set_disk_geometry_invariant (device_extension : DEVICE_EXTENSION) :
    let d := set_disk_geometry device_extension
    d.disk_geometry.BytesPerSector = 512
      ∧ d.disk_geometry.SectorsPerTrack = 32
      ∧ d.disk_geometry.TracksPerCylinder = 2
      ∧ d.disk_geometry.Cylinders * (d.disk_geometry.TracksPerCylinder : Int)
            * (d.disk_geometry.SectorsPerTrack : Int) * (d.disk_geometry.BytesPerSector : Int)
          ≤ (device_extension.disk_info.disk_size : Int)
      ∧ d.disk_info.disk_size = device_extension.disk_info.disk_size
      ∧ set_disk_geometry d = d := by
  refine ⟨rfl, rfl, rfl, ?_, rfl, rfl⟩
  simp only [set_disk_geometry, Int.ofNat_eq_coe]
  have h := Nat.div_mul_le_self device_extension.disk_info.disk_size (512 * 32 * 2)
  rw [Nat.div_div_eq_div_mul, Nat.div_div_eq_div_mul]
  push_cast
  omega

/-! ### The classifier -/

/-- C11: `EvtIoWdmIrpForForwardProgress` returns `UseReservedRequest` exactly when the major
function of the IRP is read, write, device-control or internal-device-control, returns
`FailRequest` for every other major function, and its result does not depend on the queue
argument. -/
theorem classifier_reserved_iff (Queue Queue' : WDFQUEUE) (Irp : IRP) :
    (EvtIoWdmIrpForForwardProgress Queue Irp
        = WDF_IO_FORWARD_PROGRESS_ACTION.WdfIoForwardProgressActionUseReservedRequest
      ↔ Irp.CurrentStackLocation.MajorFunction
          ∈ [IRP_MJ_READ, IRP_MJ_WRITE, IRP_MJ_DEVICE_CONTROL, IRP_MJ_INTERNAL_DEVICE_CONTROL])
    ∧ (EvtIoWdmIrpForForwardProgress Queue Irp
        = WDF_IO_FORWARD_PROGRESS_ACTION.WdfIoForwardProgressActionFailRequest
      ↔ Irp.CurrentStackLocation.MajorFunction
          ∉ [IRP_MJ_READ, IRP_MJ_WRITE, IRP_MJ_DEVICE_CONTROL, IRP_MJ_INTERNAL_DEVICE_CONTROL])
    ∧ EvtIoWdmIrpForForwardProgress Queue' Irp = EvtIoWdmIrpForForwardProgress Queue Irp := by
  refine ⟨?_, ?_, rfl⟩
  · unfold EvtIoWdmIrpForForwardProgress IoGetCurrentIrpStackLocation
    simp only [List.mem_cons, List.mem_singleton, List.not_mem_nil, or_false]
    split_ifs with h
    · exact ⟨fun _ => h, fun _ => rfl⟩
    · exact ⟨fun hc => (nomatch hc), fun hm => absurd hm h⟩
  · unfold EvtIoWdmIrpForForwardProgress IoGetCurrentIrpStackLocation
    simp only [List.mem_cons, List.mem_singleton, List.not_mem_nil, or_false]
    split_ifs with h
    · exact ⟨fun hc => (nomatch hc), fun hm => absurd h hm⟩
    · exact ⟨fun _ => h, fun _ => rfl⟩

/-! ### Device control: the answers -/

/-- C12: with a retrievable output buffer of at least `sizeof(PARTITION_INFORMATION)` bytes,
get-partition-info completes with `STATUS_SUCCESS` and `sizeof(PARTITION_INFORMATION)`
bytes, leaves the device extension as it was, and stores the record with starting offset 0,
partition length `disk_size`, the current `partition_type`, `RecognizedPartition = TRUE`
and `BootIndicator = FALSE` (hidden sectors 1, partition number `(ULONG) -1`, no rewrite). -/
theorem get_partition_info_record (device_extension : DEVICE_EXTENSION) (request : WDFREQUEST)
    (hout : request.OutputFailure = none)
    (hlen : sizeof_PARTITION_INFORMATION ≤ request.OutputBuffer.length) :
    device_control device_extension request IOCTL_DISK_GET_PARTITION_INFO
      = (device_extension,
          WdfRequestCompleteWithInformation
            { request with
              OutputRecord := some (.partition_information
                { StartingOffset := 0
                  PartitionLength := (device_extension.disk_info.disk_size : Int)
                  HiddenSectors := 1
                  PartitionNumber := 2 ^ 32 - 1
                  PartitionType := device_extension.disk_info.partition_type
                  BootIndicator := false
                  RecognizedPartition := true
                  RewritePartition := false }) }
            STATUS_SUCCESS sizeof_PARTITION_INFORMATION) := by
  have h : ¬ request.OutputBuffer.length < 32 := Nat.not_lt.mpr hlen
  simp [device_control, EvtIoDeviceControl, EvtIoDeviceControl_switch,
    WdfRequestRetrieveOutputBuffer, hout, h, WdfRequestCompleteWithInformation]

/-- Witness of C12: a 32-byte buffer on the default disk. -/
theorem get_partition_info_record_witness :
    device_control (new_device DEFAULT_DISK_SIZE 0) (control_request (List.replicate 32 0) [])
        IOCTL_DISK_GET_PARTITION_INFO
      = (new_device DEFAULT_DISK_SIZE 0,
          WdfRequestCompleteWithInformation
            { control_request (List.replicate 32 0) [] with
              OutputRecord := some (.partition_information
                { StartingOffset := 0
                  PartitionLength := ((new_device DEFAULT_DISK_SIZE 0).disk_info.disk_size : Int)
                  HiddenSectors := 1
                  PartitionNumber := 2 ^ 32 - 1
                  PartitionType := (new_device DEFAULT_DISK_SIZE 0).disk_info.partition_type
                  BootIndicator := false
                  RecognizedPartition := true
                  RewritePartition := false }) }
            STATUS_SUCCESS sizeof_PARTITION_INFORMATION) :=
  get_partition_info_record (new_device DEFAULT_DISK_SIZE 0)
    (control_request (List.replicate 32 0) []) rfl (by decide)

/-- C13: with a retrievable input buffer of at least `sizeof(SET_PARTITION_INFORMATION)`
bytes, set-partition-info completes with `STATUS_SUCCESS` and 0 bytes, leaves the request's
buffers alone, and changes the device extension in `partition_type` only, which becomes the
`PartitionType` of the input (its first byte); a following get-partition-info returns that
partition type; and with an undersized input buffer the device extension, `partition_type`
included, stays as it was. -/
theorem set_partition_info_effect (device_extension : DEVICE_EXTENSION) (request : WDFREQUEST)
    (hin : request.InputFailure = none)
    (hlen : sizeof_SET_PARTITION_INFORMATION ≤ request.InputBuffer.length) :
    device_control device_extension request IOCTL_DISK_SET_PARTITION_INFO
        = ({ device_extension with
              disk_info := { device_extension.disk_info with
                partition_type := request.InputBuffer.headD 0 } },
            WdfRequestCompleteWithInformation request STATUS_SUCCESS 0)
      ∧ (∀ (next : WDFREQUEST), next.OutputFailure = none →
          sizeof_PARTITION_INFORMATION ≤ next.OutputBuffer.length →
          ∃ record,
            (device_control
                (device_control device_extension request IOCTL_DISK_SET_PARTITION_INFO).1
                next IOCTL_DISK_GET_PARTITION_INFO).2.OutputRecord
              = some (.partition_information record)
            ∧ record.PartitionType = request.InputBuffer.headD 0)
      ∧ (∀ (short : WDFREQUEST),
          short.InputBuffer.length < sizeof_SET_PARTITION_INFORMATION →
          (device_control device_extension short IOCTL_DISK_SET_PARTITION_INFO).1
            = device_extension) := by
  have h : ¬ request.InputBuffer = [] := by
    intro h0
    rw [h0] at hlen
    exact absurd hlen (by decide)
  have hset : device_control device_extension request IOCTL_DISK_SET_PARTITION_INFO
      = ({ device_extension with
            disk_info := { device_extension.disk_info with
              partition_type := request.InputBuffer.headD 0 } },
          WdfRequestCompleteWithInformation request STATUS_SUCCESS 0) := by
    simp [device_control, EvtIoDeviceControl, EvtIoDeviceControl_switch, CTL_CODE,
      WdfRequestRetrieveInputBuffer, hin, h, WdfRequestCompleteWithInformation]
  refine ⟨hset, ?_, ?_⟩
  · intro next hnext hnlen
    have hn : ¬ next.OutputBuffer.length < 32 := Nat.not_lt.mpr hnlen
    rw [hset]
    refine ⟨{ StartingOffset := 0
              PartitionLength := (device_extension.disk_info.disk_size : Int)
              HiddenSectors := 1
              PartitionNumber := 2 ^ 32 - 1
              PartitionType := request.InputBuffer.headD 0
              BootIndicator := false
              RecognizedPartition := true
              RewritePartition := false }, ?_, rfl⟩
    simp [device_control, EvtIoDeviceControl, EvtIoDeviceControl_switch,
      WdfRequestRetrieveOutputBuffer, hnext, hn, WdfRequestCompleteWithInformation]
  · intro short hshort
    have hs : short.InputBuffer = [] := by
      cases hb : short.InputBuffer with
      | nil => rfl
      | cons a l => rw [hb] at hshort; simp at hshort
    simp [device_control, EvtIoDeviceControl, EvtIoDeviceControl_switch, CTL_CODE, hs]

/-- Witness of C13: partition type 6 set on the default disk, read back through a 32-byte
buffer; an empty input buffer changes nothing. -/
theorem set_partition_info_effect_witness :
    device_control (new_device DEFAULT_DISK_SIZE 0) (control_request [] [6])
        IOCTL_DISK_SET_PARTITION_INFO
        = ({ new_device DEFAULT_DISK_SIZE 0 with
              disk_info := { (new_device DEFAULT_DISK_SIZE 0).disk_info with
                partition_type := (control_request [] [6]).InputBuffer.headD 0 } },
            WdfRequestCompleteWithInformation (control_request [] [6]) STATUS_SUCCESS 0)
      ∧ (∃ record,
          (device_control
              (device_control (new_device DEFAULT_DISK_SIZE 0) (control_request [] [6])
                IOCTL_DISK_SET_PARTITION_INFO).1
              (control_request (List.replicate 32 0) [])
              IOCTL_DISK_GET_PARTITION_INFO).2.OutputRecord
            = some (.partition_information record)
          ∧ record.PartitionType = (control_request [] [6]).InputBuffer.headD 0)
      ∧ (device_control (new_device DEFAULT_DISK_SIZE 0) (control_request [] [])
          IOCTL_DISK_SET_PARTITION_INFO).1 = new_device DEFAULT_DISK_SIZE 0 :=
  have h := set_partition_info_effect (new_device DEFAULT_DISK_SIZE 0)
    (control_request [] [6]) rfl (by decide)
  ⟨h.1, h.2.1 (control_request (List.replicate 32 0) []) rfl (by decide),
    h.2.2 (control_request [] []) (by decide)⟩

/-- C14: with a retrievable output buffer of at least `sizeof(DISK_GEOMETRY)` bytes,
get-drive-geometry completes with `STATUS_SUCCESS` and `sizeof(DISK_GEOMETRY)` bytes, leaves
the device extension as it was and stores a copy of its `disk_geometry`; the disk and the
storage get-media-types codes give the same result as get-drive-geometry. -/
theorem geometry_queries_copy_geometry (device_extension : DEVICE_EXTENSION)
    (request : WDFREQUEST) (hout : request.OutputFailure = none)
    (hlen : sizeof_DISK_GEOMETRY ≤ request.OutputBuffer.length) :
    device_control device_extension request IOCTL_DISK_GET_DRIVE_GEOMETRY
        = (device_extension,
            WdfRequestCompleteWithInformation
              { request with
                OutputRecord := some (.disk_geometry device_extension.disk_geometry) }
              STATUS_SUCCESS sizeof_DISK_GEOMETRY)
      ∧ device_control device_extension request IOCTL_DISK_GET_MEDIA_TYPES
        = device_control device_extension request IOCTL_DISK_GET_DRIVE_GEOMETRY
      ∧ device_control device_extension request IOCTL_STORAGE_GET_MEDIA_TYPES
        = device_control device_extension request IOCTL_DISK_GET_DRIVE_GEOMETRY := by
  have h : ¬ request.OutputBuffer.length < 24 := Nat.not_lt.mpr hlen
  refine ⟨?_, ?_, ?_⟩ <;>
    simp [device_control, EvtIoDeviceControl, EvtIoDeviceControl_switch, CTL_CODE,
      WdfRequestRetrieveOutputBuffer, hout, h, WdfRequestCompleteWithInformation]

/-- Witness of C14: a 24-byte buffer on the default disk. -/
theorem geometry_queries_copy_geometry_witness :
    device_control (new_device DEFAULT_DISK_SIZE 0) (control_request (List.replicate 24 0) [])
        IOCTL_DISK_GET_DRIVE_GEOMETRY
        = (new_device DEFAULT_DISK_SIZE 0,
            WdfRequestCompleteWithInformation
              { control_request (List.replicate 24 0) [] with
                OutputRecord :=
                  some (.disk_geometry (new_device DEFAULT_DISK_SIZE 0).disk_geometry) }
              STATUS_SUCCESS sizeof_DISK_GEOMETRY)
      ∧ device_control (new_device DEFAULT_DISK_SIZE 0)
          (control_request (List.replicate 24 0) []) IOCTL_DISK_GET_MEDIA_TYPES
        = device_control (new_device DEFAULT_DISK_SIZE 0)
          (control_request (List.replicate 24 0) []) IOCTL_DISK_GET_DRIVE_GEOMETRY
      ∧ device_control (new_device DEFAULT_DISK_SIZE 0)
          (control_request (List.replicate 24 0) []) IOCTL_STORAGE_GET_MEDIA_TYPES
        = device_control (new_device DEFAULT_DISK_SIZE 0)
          (control_request (List.replicate 24 0) []) IOCTL_DISK_GET_DRIVE_GEOMETRY :=
  geometry_queries_copy_geometry (new_device DEFAULT_DISK_SIZE 0)
    (control_request (List.replicate 24 0) []) rfl (by decide)

/-- C15: for every request and every pair of buffer lengths handed to `EvtIoDeviceControl`,
check-verify (disk and storage code) and is-writable complete with `STATUS_SUCCESS` and 0
bytes; media-removal (disk and storage code) completes with `STATUS_SUCCESS` and 0 bytes
exactly when the input buffer length is at least `sizeof(BOOLEAN)`, and with
`STATUS_INVALID_DEVICE_REQUEST` otherwise; in every case the device extension and the
request's buffers are left as they were. -/
theorem verify_writable_removal (device_extension : DEVICE_EXTENSION) (request : WDFREQUEST)
    (output_buffer_length input_buffer_length : Nat) :
    EvtIoDeviceControl device_extension request output_buffer_length input_buffer_length
        IOCTL_DISK_CHECK_VERIFY
        = (device_extension, WdfRequestCompleteWithInformation request STATUS_SUCCESS 0)
      ∧ EvtIoDeviceControl device_extension request output_buffer_length input_buffer_length
        IOCTL_STORAGE_CHECK_VERIFY
        = (device_extension, WdfRequestCompleteWithInformation request STATUS_SUCCESS 0)
      ∧ EvtIoDeviceControl device_extension request output_buffer_length input_buffer_length
        IOCTL_DISK_IS_WRITABLE
        = (device_extension, WdfRequestCompleteWithInformation request STATUS_SUCCESS 0)
      ∧ EvtIoDeviceControl device_extension request output_buffer_length input_buffer_length
        IOCTL_DISK_MEDIA_REMOVAL
        = (device_extension,
            if sizeof_BOOLEAN ≤ input_buffer_length then
              WdfRequestCompleteWithInformation request STATUS_SUCCESS 0
            else
              WdfRequestCompleteWithInformation request STATUS_INVALID_DEVICE_REQUEST
                sizeof_BOOLEAN)
      ∧ EvtIoDeviceControl device_extension request output_buffer_length input_buffer_length
        IOCTL_STORAGE_MEDIA_REMOVAL
        = EvtIoDeviceControl device_extension request output_buffer_length input_buffer_length
          IOCTL_DISK_MEDIA_REMOVAL
      ∧ ((EvtIoDeviceControl device_extension request output_buffer_length input_buffer_length
            IOCTL_DISK_MEDIA_REMOVAL).2.Completed
          = request.Completed ++ [(STATUS_SUCCESS, 0)]
        ↔ sizeof_BOOLEAN ≤ input_buffer_length) := by
  have hrem : EvtIoDeviceControl device_extension request output_buffer_length
      input_buffer_length IOCTL_DISK_MEDIA_REMOVAL
      = (device_extension,
          if sizeof_BOOLEAN ≤ input_buffer_length then
            WdfRequestCompleteWithInformation request STATUS_SUCCESS 0
          else
            WdfRequestCompleteWithInformation request STATUS_INVALID_DEVICE_REQUEST
              sizeof_BOOLEAN) := by
    by_cases h : input_buffer_length < 1
    · have h' : ¬ 1 ≤ input_buffer_length := by omega
      simp [EvtIoDeviceControl, EvtIoDeviceControl_switch, CTL_CODE, h, h']
    · have h' : 1 ≤ input_buffer_length := by omega
      simp [EvtIoDeviceControl, EvtIoDeviceControl_switch, CTL_CODE, h, h']
  refine ⟨?_, ?_, ?_, hrem, ?_, ?_⟩
  · simp [EvtIoDeviceControl, EvtIoDeviceControl_switch, CTL_CODE]
  · simp [EvtIoDeviceControl, EvtIoDeviceControl_switch, CTL_CODE]
  · simp [EvtIoDeviceControl, EvtIoDeviceControl_switch, CTL_CODE]
  · rw [hrem]
    by_cases h : input_buffer_length < 1
    · have h' : ¬ 1 ≤ input_buffer_length := by omega
      simp [EvtIoDeviceControl, EvtIoDeviceControl_switch, CTL_CODE, h, h']
    · have h' : 1 ≤ input_buffer_length := by omega
      simp [EvtIoDeviceControl, EvtIoDeviceControl_switch, CTL_CODE, h, h']
  · rw [hrem]
    by_cases h : 1 ≤ input_buffer_length
    · simp [h, WdfRequestCompleteWithInformation]
    · simp [h, WdfRequestCompleteWithInformation]

/-- C16: with a retrievable output buffer of at least `sizeof(GET_LENGTH_INFORMATION)`
bytes, get-length-info completes with `STATUS_SUCCESS` and
`sizeof(GET_LENGTH_INFORMATION)` bytes, leaves the device extension as it was, and stores a
64-bit length equal to `disk_size`: it is not negative, and for a 32-bit `disk_size` it is
inside the signed 64-bit range, so nothing is truncated. -/
theorem get_length_info_record (device_extension : DEVICE_EXTENSION) (request : WDFREQUEST)
    (hout : request.OutputFailure = none)
    (hlen : sizeof_GET_LENGTH_INFORMATION ≤ request.OutputBuffer.length) :
    device_control device_extension request IOCTL_DISK_GET_LENGTH_INFO
        = (device_extension,
            WdfRequestCompleteWithInformation
              { request with
                OutputRecord := some (.length_information
                  { Length := (device_extension.disk_info.disk_size : Int) }) }
              STATUS_SUCCESS sizeof_GET_LENGTH_INFORMATION)
      ∧ (0 : Int) ≤ (device_extension.disk_info.disk_size : Int)
      ∧ ((device_extension.disk_info.disk_size : Int)).toNat
          = device_extension.disk_info.disk_size
      ∧ (device_extension.disk_info.disk_size < 2 ^ 32 →
          (device_extension.disk_info.disk_size : Int) < 2 ^ 63) := by
  have h : ¬ request.OutputBuffer.length < 8 := Nat.not_lt.mpr hlen
  refine ⟨?_, Int.ofNat_nonneg _, Int.toNat_ofNat _, fun hs => by omega⟩
  simp [device_control, EvtIoDeviceControl, EvtIoDeviceControl_switch, CTL_CODE,
    WdfRequestGetParameters, get_length_info, WdfRequestRetrieveOutputBuffer, hout, h,
    WdfRequestCompleteWithInformation]

/-- Witness of C16: an 8-byte buffer on the default disk. -/
theorem get_length_info_record_witness :
    device_control (new_device DEFAULT_DISK_SIZE 0) (control_request (List.replicate 8 0) [])
        IOCTL_DISK_GET_LENGTH_INFO
      = (new_device DEFAULT_DISK_SIZE 0,
          WdfRequestCompleteWithInformation
            { control_request (List.replicate 8 0) [] with
              OutputRecord := some (.length_information
                { Length := ((new_device DEFAULT_DISK_SIZE 0).disk_info.disk_size : Int) }) }
            STATUS_SUCCESS sizeof_GET_LENGTH_INFORMATION) :=
  (get_length_info_record (new_device DEFAULT_DISK_SIZE 0)
    (control_request (List.replicate 8 0) []) rfl (by decide)).1

/-- C17: for every control code without a `case` label, every request and every pair of
buffer lengths, `EvtIoDeviceControl` completes the request with
`STATUS_INVALID_DEVICE_REQUEST` and 0 bytes and leaves the device extension and the
request's buffers as they were. -/
theorem unrecognised_code_rejected (device_extension : DEVICE_EXTENSION) (request : WDFREQUEST)
    (output_buffer_length input_buffer_length code : Nat)
    (hcode : code ∉ recognised_codes) :
    EvtIoDeviceControl device_extension request output_buffer_length input_buffer_length code
      = (device_extension,
          WdfRequestCompleteWithInformation request STATUS_INVALID_DEVICE_REQUEST 0) := by
  simp only [recognised_codes, List.mem_cons, List.mem_singleton, List.not_mem_nil,
    or_false, not_or] at hcode
  obtain ⟨h1, h2, h3, h4, h5, h6, h7, h8, h9, h10, h11, h12, h13, h14⟩ := hcode
  simp [EvtIoDeviceControl, EvtIoDeviceControl_switch,
    h1, h2, h3, h4, h5, h6, h7, h8, h9, h10, h11, h12, h13, h14]

/-- Witness of C17: the control code 0 on the default disk. -/
theorem unrecognised_code_rejected_witness :
    EvtIoDeviceControl (new_device DEFAULT_DISK_SIZE 0) (control_request [] []) 0 0 0
      = (new_device DEFAULT_DISK_SIZE 0,
          WdfRequestCompleteWithInformation (control_request [] [])
            STATUS_INVALID_DEVICE_REQUEST 0) :=
  unrecognised_code_rejected (new_device DEFAULT_DISK_SIZE 0) (control_request [] []) 0 0 0
    (by decide)

/-! ### The cylinder count -/

/-- C20: the cylinder count `set_disk_geometry` stores, the chained division
`disk_size / BytesPerSector / SectorsPerTrack / TracksPerCylinder`, equals
`disk_size / (BytesPerSector * SectorsPerTrack * TracksPerCylinder) = disk_size / 32768`;
the media type is `FixedMedia`; the default 1,048,576-byte disk has 32 cylinders. -/
theorem cylinder_count_formula (device_extension : DEVICE_EXTENSION) :
    (set_disk_geometry device_extension).disk_geometry.Cylinders
        = ((device_extension.disk_info.disk_size / 512 / 32 / 2 : Nat) : Int)
      ∧ device_extension.disk_info.disk_size / 512 / 32 / 2
        = device_extension.disk_info.disk_size
            / ((set_disk_geometry device_extension).disk_geometry.BytesPerSector
                * (set_disk_geometry device_extension).disk_geometry.SectorsPerTrack
                * (set_disk_geometry device_extension).disk_geometry.TracksPerCylinder)
      ∧ device_extension.disk_info.disk_size / 512 / 32 / 2
        = device_extension.disk_info.disk_size / 32768
      ∧ (set_disk_geometry device_extension).disk_geometry.MediaType = MEDIA_TYPE.FixedMedia
      ∧ (new_device DEFAULT_DISK_SIZE 0).disk_geometry.Cylinders = 32 := by
  have hchain : device_extension.disk_info.disk_size / 512 / 32 / 2
      = device_extension.disk_info.disk_size / 32768 := by
    rw [Nat.div_div_eq_div_mul, Nat.div_div_eq_div_mul]
  refine ⟨rfl, ?_, hchain, rfl, ?_⟩
  · show device_extension.disk_info.disk_size / 512 / 32 / 2
      = device_extension.disk_info.disk_size / (512 * 32 * 2)
    rw [Nat.div_div_eq_div_mul, Nat.div_div_eq_div_mul]
  · show Int.ofNat (DEFAULT_DISK_SIZE / 512 / 32 / 2) = 32
    decide

/-! ### One completion per request -/

theorem check_parameters_accepted (device_extension : DEVICE_EXTENSION) (offset : Int)
    (length : Nat) (h : check_parameters device_extension offset length = true) :
    0 ≤ offset
      ∧ (ULONGLONG_of offset + length) % 2 ^ 64 ≤ device_extension.disk_info.disk_size := by
  unfold check_parameters at h
  split_ifs at h with hc
  simp only [not_or, not_lt, gt_iff_lt] at hc
  exact ⟨hc.1, hc.2.1⟩

/-- A request that `check_parameters` accepts, with an offset in the signed 64-bit range and
a length below `2 ^ 63`, lies inside the image of a device whose image has
`disk_size < 2 ^ 32` bytes. -/
theorem accepted_copy_in_image (device_extension : DEVICE_EXTENSION) (offset : Int)
    (length : Nat)
    (himg : device_extension.disk_image.length = device_extension.disk_info.disk_size)
    (hsize : device_extension.disk_info.disk_size < 2 ^ 32)
    (hoff : offset < 2 ^ 63) (hlen : length < 2 ^ 63)
    (h : check_parameters device_extension offset length = true) :
    LowPart offset + length ≤ device_extension.disk_image.length := by
  obtain ⟨h0, h1⟩ := check_parameters_accepted device_extension offset length h
  rw [ULONGLONG_of_nonneg h0 (by omega), Nat.mod_eq_of_lt (by omega)] at h1
  rw [LowPart_nonneg h0 (by omega), himg]
  exact h1

theorem EvtIoRead_of_short_buffer (device_extension : DEVICE_EXTENSION) (request : WDFREQUEST)
    (length : Nat)
    (hcheck : check_parameters device_extension request.DeviceOffset length = true)
    (hbuf : request.OutputFailure = none) (hlen : request.OutputBuffer.length < length) :
    EvtIoRead device_extension request length
      = some (device_extension,
          WdfRequestCompleteWithInformation request STATUS_BUFFER_TOO_SMALL length) := by
  have h1 : length > request.OutputBuffer.length := hlen
  obtain ⟨offset, output, input, ofail, ifail, record, done⟩ := request
  simp only at hbuf hcheck h1
  subst hbuf
  simp [EvtIoRead, WdfRequestGetParameters, hcheck, WdfRequestRetrieveOutputMemory,
    WdfMemoryCopyFromBuffer, h1]

theorem EvtIoRead_of_retrieval_failure (device_extension : DEVICE_EXTENSION)
    (request : WDFREQUEST) (length : Nat) (status : NTSTATUS)
    (hcheck : check_parameters device_extension request.DeviceOffset length = true)
    (hbuf : request.OutputFailure = some status) :
    EvtIoRead device_extension request length
      = some (device_extension, WdfRequestCompleteWithInformation request status length) := by
  simp [EvtIoRead, WdfRequestGetParameters, hcheck, WdfRequestRetrieveOutputMemory, hbuf]

theorem EvtIoWrite_of_retrieval_failure (device_extension : DEVICE_EXTENSION)
    (request : WDFREQUEST) (length : Nat) (status : NTSTATUS)
    (hcheck : check_parameters device_extension request.DeviceOffset length = true)
    (hbuf : request.InputFailure = some status) :
    EvtIoWrite device_extension request length
      = some (device_extension, WdfRequestCompleteWithInformation request status length) := by
  simp [EvtIoWrite, WdfRequestGetParameters, hcheck, WdfRequestRetrieveInputMemory, hbuf]

theorem query_device_name_Completed (request : WDFREQUEST)
    (parameters : WDF_REQUEST_PARAMETERS) :
    (query_device_name request parameters).2.2.Completed = request.Completed := by
  unfold query_device_name
  split_ifs <;> (try split) <;> rfl

theorem query_unique_id_Completed (request : WDFREQUEST)
    (parameters : WDF_REQUEST_PARAMETERS) :
    (query_unique_id request parameters).2.2.Completed = request.Completed := by
  unfold query_unique_id
  split_ifs <;> (try split) <;> rfl

theorem get_length_info_Completed (device_extension : DEVICE_EXTENSION) (request : WDFREQUEST)
    (parameters : WDF_REQUEST_PARAMETERS) :
    (get_length_info device_extension request parameters).2.2.Completed
      = request.Completed := by
  unfold get_length_info
  split_ifs <;> (try split) <;> rfl

theorem get_hotplug_info_Completed (request : WDFREQUEST)
    (parameters : WDF_REQUEST_PARAMETERS) :
    (get_hotplug_info request parameters).2.2.Completed = request.Completed := by
  unfold get_hotplug_info
  split_ifs <;> (try split) <;> rfl

/-- Every exit of the `switch` of `EvtIoDeviceControl` either has completed the request
once and returns, or has not completed it and breaks. -/
theorem EvtIoDeviceControl_switch_exits (device_extension : DEVICE_EXTENSION)
    (request : WDFREQUEST) (parameters : WDF_REQUEST_PARAMETERS)
    (output_buffer_length input_buffer_length code : Nat) :
    (∃ d r completion,
        EvtIoDeviceControl_switch device_extension request parameters output_buffer_length
          input_buffer_length code = .returned d r
        ∧ r.Completed = request.Completed ++ [completion])
      ∨ (∃ d r status information,
        EvtIoDeviceControl_switch device_extension request parameters output_buffer_length
          input_buffer_length code = .break_ d r status information
        ∧ r.Completed = request.Completed) := by
  unfold EvtIoDeviceControl_switch
  by_cases h1 : code = IOCTL_DISK_GET_PARTITION_INFO
  · rw [if_pos h1]
    by_cases hshort : output_buffer_length < sizeof_PARTITION_INFORMATION
    · rw [if_pos hshort]
      exact Or.inl ⟨_, _, _, rfl, rfl⟩
    · rw [if_neg hshort]
      split
      · exact Or.inl ⟨_, _, _, rfl, rfl⟩
      · exact Or.inr ⟨_, _, _, _, rfl, rfl⟩
  rw [if_neg h1]
  by_cases h2 : code = IOCTL_DISK_SET_PARTITION_INFO
  · rw [if_pos h2]
    by_cases hshort : input_buffer_length < sizeof_SET_PARTITION_INFORMATION
    · rw [if_pos hshort]
      exact Or.inl ⟨_, _, _, rfl, rfl⟩
    · rw [if_neg hshort]
      split
      · exact Or.inl ⟨_, _, _, rfl, rfl⟩
      · exact Or.inr ⟨_, _, _, _, rfl, rfl⟩
  rw [if_neg h2]
  by_cases h3 : code = IOCTL_DISK_GET_DRIVE_GEOMETRY
  · rw [if_pos h3]
    by_cases hshort : output_buffer_length < sizeof_DISK_GEOMETRY
    · rw [if_pos hshort]
      exact Or.inl ⟨_, _, _, rfl, rfl⟩
    · rw [if_neg hshort]
      split
      · exact Or.inl ⟨_, _, _, rfl, rfl⟩
      · exact Or.inr ⟨_, _, _, _, rfl, rfl⟩
  rw [if_neg h3]
  by_cases h4 : code = IOCTL_DISK_GET_MEDIA_TYPES ∨ code = IOCTL_STORAGE_GET_MEDIA_TYPES
  · rw [if_pos h4]
    by_cases hshort : output_buffer_length < sizeof_DISK_GEOMETRY
    · rw [if_pos hshort]
      exact Or.inl ⟨_, _, _, rfl, rfl⟩
    · rw [if_neg hshort]
      split
      · exact Or.inl ⟨_, _, _, rfl, rfl⟩
      · exact Or.inr ⟨_, _, _, _, rfl, rfl⟩
  rw [if_neg h4]
  by_cases h5 : code = IOCTL_DISK_CHECK_VERIFY ∨ code = IOCTL_STORAGE_CHECK_VERIFY
      ∨ code = IOCTL_DISK_IS_WRITABLE
  · rw [if_pos h5]
    exact Or.inr ⟨_, _, _, _, rfl, rfl⟩
  rw [if_neg h5]
  by_cases h6 : code = IOCTL_MOUNTDEV_QUERY_DEVICE_NAME
  · rw [if_pos h6]
    exact Or.inr ⟨_, _, _, _, rfl, query_device_name_Completed _ _⟩
  rw [if_neg h6]
  by_cases h7 : code = IOCTL_MOUNTDEV_QUERY_UNIQUE_ID
  · rw [if_pos h7]
    exact Or.inr ⟨_, _, _, _, rfl, query_unique_id_Completed _ _⟩
  rw [if_neg h7]
  by_cases h8 : code = IOCTL_DISK_MEDIA_REMOVAL ∨ code = IOCTL_STORAGE_MEDIA_REMOVAL
  · rw [if_pos h8]
    by_cases hshort : input_buffer_length < sizeof_BOOLEAN
    · rw [if_pos hshort]
      exact Or.inl ⟨_, _, _, rfl, rfl⟩
    · rw [if_neg hshort]
      exact Or.inr ⟨_, _, _, _, rfl, rfl⟩
  rw [if_neg h8]
  by_cases h9 : code = IOCTL_DISK_GET_LENGTH_INFO
  · rw [if_pos h9]
    exact Or.inr ⟨_, _, _, _, rfl, get_length_info_Completed _ _ _⟩
  rw [if_neg h9]
  by_cases h10 : code = IOCTL_STORAGE_GET_HOTPLUG_INFO
  · rw [if_pos h10]
    exact Or.inr ⟨_, _, _, _, rfl, get_hotplug_info_Completed _ _⟩
  rw [if_neg h10]
  exact Or.inr ⟨_, _, _, _, rfl, rfl⟩

/-- Whatever the control code, the buffer lengths and the outcome of the buffer retrieval,
`EvtIoDeviceControl` adds exactly one completion to the request. -/
theorem EvtIoDeviceControl_completes_once (device_extension : DEVICE_EXTENSION)
    (request : WDFREQUEST) (output_buffer_length input_buffer_length code : Nat) :
    ∃ completion,
      (EvtIoDeviceControl device_extension request output_buffer_length input_buffer_length
          code).2.Completed = request.Completed ++ [completion] := by
  unfold EvtIoDeviceControl
  rcases EvtIoDeviceControl_switch_exits device_extension request
      (WdfRequestGetParameters request) output_buffer_length input_buffer_length code with
    ⟨d, r, completion, hexit, hdone⟩ | ⟨d, r, status, information, hexit, hdone⟩
  · refine ⟨completion, ?_⟩
    simp only [hexit]
    exact hdone
  · refine ⟨(status, information), ?_⟩
    simp only [hexit, WdfRequestCompleteWithInformation]
    rw [hdone]

/-- C18: every handler invocation completes its request exactly once. On a device whose
image has `disk_size < 2 ^ 32` bytes, for a request with an offset in the signed 64-bit
range and buffers shorter than `2 ^ 63` bytes, `EvtIoRead` and `EvtIoWrite` return for every
length, whether the parameters are accepted and whether the buffer can be retrieved, and
have added exactly one `(status, information)` pair to the request's completions; so has
`EvtIoDeviceControl`, for every control code, every pair of buffer lengths and every
outcome of the buffer retrieval. -/
theorem each_request_completed_once (device_extension : DEVICE_EXTENSION)
    (request : WDFREQUEST) (length output_buffer_length input_buffer_length code : Nat)
    (himg : device_extension.disk_image.length = device_extension.disk_info.disk_size)
    (hsize : device_extension.disk_info.disk_size < 2 ^ 32)
    (hoff : request.DeviceOffset < 2 ^ 63)
    (hout : request.OutputBuffer.length < 2 ^ 63)
    (hin : request.InputBuffer.length < 2 ^ 63) :
    (∃ rd completion,
        EvtIoRead device_extension request length = some (device_extension, rd)
        ∧ rd.Completed = request.Completed ++ [completion])
      ∧ (∃ written wr completion,
        EvtIoWrite device_extension request length = some (written, wr)
        ∧ wr.Completed = request.Completed ++ [completion])
      ∧ (∃ completion,
        (EvtIoDeviceControl device_extension request output_buffer_length
            input_buffer_length code).2.Completed = request.Completed ++ [completion]) := by
  refine ⟨?_, ?_, EvtIoDeviceControl_completes_once _ _ _ _ _⟩
  · cases hc : check_parameters device_extension request.DeviceOffset length with
    | false => exact ⟨_, _, EvtIoRead_of_rejected _ _ _ hc, rfl⟩
    | true =>
      cases hO : request.OutputFailure with
      | some status => exact ⟨_, _, EvtIoRead_of_retrieval_failure _ _ _ status hc hO, rfl⟩
      | none =>
        by_cases hl : request.OutputBuffer.length < length
        · exact ⟨_, _, EvtIoRead_of_short_buffer _ _ _ hc hO hl, rfl⟩
        · exact ⟨_, _, EvtIoRead_of_accepted _ _ _ hc hO (by omega)
            (accepted_copy_in_image _ _ _ himg hsize hoff (by omega) hc), rfl⟩
  · cases hc : check_parameters device_extension request.DeviceOffset length with
    | false => exact ⟨_, _, _, EvtIoWrite_of_rejected _ _ _ hc, rfl⟩
    | true =>
      cases hI : request.InputFailure with
      | some status =>
        exact ⟨_, _, _, EvtIoWrite_of_retrieval_failure _ _ _ status hc hI, rfl⟩
      | none =>
        by_cases hl : request.InputBuffer.length < length
        · exact ⟨_, _, _, EvtIoWrite_of_short_buffer _ _ _ hc hI hl, rfl⟩
        · exact ⟨_, _, _, EvtIoWrite_of_accepted _ _ _ hc hI (by omega)
            (accepted_copy_in_image _ _ _ himg hsize hoff (by omega) hc), rfl⟩

/-- Witness of C18: a 512-byte request at offset 0 of the default disk, and
get-drive-geometry with a 0-byte buffer. -/
theorem each_request_completed_once_witness :
    (∃ rd completion,
        EvtIoRead (new_device DEFAULT_DISK_SIZE 0) (read_request 0 (List.replicate 512 0)) 512
          = some (new_device DEFAULT_DISK_SIZE 0, rd)
        ∧ rd.Completed = [] ++ [completion])
      ∧ (∃ written wr completion,
        EvtIoWrite (new_device DEFAULT_DISK_SIZE 0) (read_request 0 (List.replicate 512 0)) 512
          = some (written, wr)
        ∧ wr.Completed = [] ++ [completion])
      ∧ (∃ completion,
        (EvtIoDeviceControl (new_device DEFAULT_DISK_SIZE 0)
            (read_request 0 (List.replicate 512 0)) 0 0
            IOCTL_DISK_GET_DRIVE_GEOMETRY).2.Completed = [] ++ [completion]) :=
  each_request_completed_once (new_device DEFAULT_DISK_SIZE 0)
    (read_request 0 (List.replicate 512 0)) 512 0 0 IOCTL_DISK_GET_DRIVE_GEOMETRY
    (by rw [new_device_image_length, new_device_disk_size])
    (by rw [new_device_disk_size]; decide)
    (by decide)
    (by show (List.replicate 512 0).length < 2 ^ 63; rw [List.length_replicate]; decide)
    (by decide)

/-! ### The copy stays inside the image -/

theorem EvtIoRead_of_overrun (device_extension : DEVICE_EXTENSION) (request : WDFREQUEST)
    (length : Nat)
    (hcheck : check_parameters device_extension request.DeviceOffset length = true)
    (hbuf : request.OutputFailure = none) (hlen : length ≤ request.OutputBuffer.length)
    (hover : device_extension.disk_image.length < LowPart request.DeviceOffset + length) :
    EvtIoRead device_extension request length = none := by
  have h1 : ¬ length > request.OutputBuffer.length := by omega
  have h2 : LowPart request.DeviceOffset + length > device_extension.disk_image.length := hover
  simp [EvtIoRead, WdfRequestGetParameters, hcheck, WdfRequestRetrieveOutputMemory, hbuf,
    WdfMemoryCopyFromBuffer, h1, h2]

theorem EvtIoWrite_of_overrun (device_extension : DEVICE_EXTENSION) (request : WDFREQUEST)
    (length : Nat)
    (hcheck : check_parameters device_extension request.DeviceOffset length = true)
    (hbuf : request.InputFailure = none) (hlen : length ≤ request.InputBuffer.length)
    (hover : device_extension.disk_image.length < LowPart request.DeviceOffset + length) :
    EvtIoWrite device_extension request length = none := by
  have h1 : ¬ length > request.InputBuffer.length := by omega
  have h2 : LowPart request.DeviceOffset + length > device_extension.disk_image.length := hover
  simp [EvtIoWrite, WdfRequestGetParameters, hcheck, WdfRequestRetrieveInputMemory, hbuf,
    WdfMemoryCopyToBuffer, h1, h2]

/-- C23: on a device whose image has `disk_size < 2 ^ 32` bytes, for a request with an
offset in the signed 64-bit range and a length below `2 ^ 32` that `check_parameters`
accepts, the low 32 bits of the offset are the whole offset and
`offset.LowPart + length ≤ disk_size`; so the two copies never take their out-of-range
branch, whatever the memory object, and `EvtIoRead` and `EvtIoWrite` return. -/
theorem accepted_copy_in_bounds (device_extension : DEVICE_EXTENSION) (request : WDFREQUEST)
    (length : Nat)
    (himg : device_extension.disk_image.length = device_extension.disk_info.disk_size)
    (hsize : device_extension.disk_info.disk_size < 2 ^ 32)
    (hoff : request.DeviceOffset < 2 ^ 63) (hlen : length < 2 ^ 32)
    (hcheck : check_parameters device_extension request.DeviceOffset length = true) :
    (LowPart request.DeviceOffset : Int) = request.DeviceOffset
      ∧ LowPart request.DeviceOffset + length ≤ device_extension.disk_info.disk_size
      ∧ (∀ hMemory : List UCHAR,
          WdfMemoryCopyFromBuffer hMemory device_extension.disk_image
              (LowPart request.DeviceOffset) length ≠ none
          ∧ WdfMemoryCopyToBuffer hMemory device_extension.disk_image
              (LowPart request.DeviceOffset) length ≠ none)
      ∧ EvtIoRead device_extension request length ≠ none
      ∧ EvtIoWrite device_extension request length ≠ none := by
  obtain ⟨h0, h1⟩ := check_parameters_accepted device_extension _ length hcheck
  have hin := accepted_copy_in_image device_extension request.DeviceOffset length himg hsize
    hoff (by omega) hcheck
  have hlow : LowPart request.DeviceOffset = request.DeviceOffset.toNat := by
    rw [ULONGLONG_of_nonneg h0 (by omega), Nat.mod_eq_of_lt (by omega)] at h1
    exact LowPart_nonneg h0 (by omega)
  have hnot : ¬ LowPart request.DeviceOffset + length > device_extension.disk_image.length := by
    omega
  refine ⟨?_, ?_, ?_, ?_, ?_⟩
  · rw [hlow]; exact Int.toNat_of_nonneg h0
  · rw [← himg]; exact hin
  · intro hMemory
    constructor
    · unfold WdfMemoryCopyFromBuffer
      split_ifs <;> simp
    · unfold WdfMemoryCopyToBuffer
      split_ifs <;> simp
  · cases hO : request.OutputFailure with
    | some status =>
      rw [EvtIoRead_of_retrieval_failure _ _ _ status hcheck hO]; simp
    | none =>
      by_cases hl : request.OutputBuffer.length < length
      · rw [EvtIoRead_of_short_buffer _ _ _ hcheck hO hl]; simp
      · rw [EvtIoRead_of_accepted _ _ _ hcheck hO (by omega) hin]; simp
  · cases hI : request.InputFailure with
    | some status =>
      rw [EvtIoWrite_of_retrieval_failure _ _ _ status hcheck hI]; simp
    | none =>
      by_cases hl : request.InputBuffer.length < length
      · rw [EvtIoWrite_of_short_buffer _ _ _ hcheck hI hl]; simp
      · rw [EvtIoWrite_of_accepted _ _ _ hcheck hI (by omega) hin]; simp

/-- Witness of C23: a 512-byte request at offset 512 of the default disk. -/
theorem accepted_copy_in_bounds_witness :
    (LowPart (read_request 512 (List.replicate 512 0)).DeviceOffset : Int)
        = (read_request 512 (List.replicate 512 0)).DeviceOffset
      ∧ LowPart (read_request 512 (List.replicate 512 0)).DeviceOffset + 512
        ≤ (new_device DEFAULT_DISK_SIZE 0).disk_info.disk_size
      ∧ EvtIoRead (new_device DEFAULT_DISK_SIZE 0) (read_request 512 (List.replicate 512 0)) 512
        ≠ none
      ∧ EvtIoWrite (new_device DEFAULT_DISK_SIZE 0) (read_request 512 (List.replicate 512 0)) 512
        ≠ none :=
  have h := accepted_copy_in_bounds (new_device DEFAULT_DISK_SIZE 0)
    (read_request 512 (List.replicate 512 0)) 512
    (by rw [new_device_image_length, new_device_disk_size])
    (by rw [new_device_disk_size]; decide)
    (by decide) (by decide)
    (by rw [check_parameters_new_device]; decide)
  ⟨h.1, h.2.1, h.2.2.2.1, h.2.2.2.2⟩

/-! ### The frame of a write -/

theorem RtlCopyMemory_getElem?_outside (destination source : List UCHAR) (start i : Nat)
    (h : start + source.length ≤ destination.length)
    (hi : i < start ∨ start + source.length ≤ i) :
    (RtlCopyMemory destination start source)[i]? = destination[i]? := by
  have hl : (destination.take start).length = start := by rw [List.length_take]; omega
  unfold RtlCopyMemory
  rcases hi with hi | hi
  · rw [List.append_assoc, List.getElem?_append_left (by omega), List.getElem?_take_of_lt hi]
  · rw [List.getElem?_append_right (by simp only [List.length_append]; omega),
      List.getElem?_drop]
    congr 1
    simp only [List.length_append]
    omega

theorem RtlCopyMemory_getElem?_inside (destination source : List UCHAR) (start j : Nat)
    (h : start + source.length ≤ destination.length) (hj : j < source.length) :
    (RtlCopyMemory destination start source)[start + j]? = source[j]? := by
  have hl : (destination.take start).length = start := by rw [List.length_take]; omega
  unfold RtlCopyMemory
  rw [List.append_assoc, List.getElem?_append_right (by omega), hl,
    List.getElem?_append_left (by omega)]
  congr 1
  omega

/-- A range of the block that does not meet the copied range reads the same before and
after `RtlCopyMemory`. -/
theorem RtlCopyMemory_disjoint_range (destination source : List UCHAR) (start first count : Nat)
    (h : start + source.length ≤ destination.length)
    (hd : first + count ≤ start ∨ start + source.length ≤ first) :
    ((RtlCopyMemory destination start source).drop first).take count
      = (destination.drop first).take count := by
  apply List.ext_getElem?
  intro n
  rw [List.getElem?_take, List.getElem?_take]
  split_ifs with hn
  · rw [List.getElem?_drop, List.getElem?_drop]
    exact RtlCopyMemory_getElem?_outside destination source start (first + n) h (by omega)
  · rfl

/-- C24: the frame of an accepted write. On a device whose image has `disk_size < 2 ^ 32`
bytes, let a write of `length` bytes (below `2 ^ 63`) at `offset` pass `check_parameters`
with a retrievable buffer of at least `length` bytes. Then `EvtIoWrite` completes with
`STATUS_SUCCESS`; every image byte at an index outside `[offset, offset + length)` is what
it was, and the byte at `offset + j`, `j < length`, is byte `j` of the caller's buffer; and
an accepted read of a range that does not meet `[offset, offset + length)` leaves the read
request exactly as the same read would have left it before the write. -/
theorem write_frame (device_extension : DEVICE_EXTENSION) (w r : WDFREQUEST)
    (length count : Nat)
    (himg : device_extension.disk_image.length = device_extension.disk_info.disk_size)
    (hsize : device_extension.disk_info.disk_size < 2 ^ 32)
    (hwoff : w.DeviceOffset < 2 ^ 63) (hwlen : length < 2 ^ 63)
    (hwcheck : check_parameters device_extension w.DeviceOffset length = true)
    (hw : w.InputFailure = none) (hwbuf : length ≤ w.InputBuffer.length)
    (hroff : r.DeviceOffset < 2 ^ 63) (hrlen : count < 2 ^ 63)
    (hrcheck : check_parameters device_extension r.DeviceOffset count = true)
    (hr : r.OutputFailure = none) (hrbuf : count ≤ r.OutputBuffer.length)
    (hdisjoint : r.DeviceOffset + (count : Int) ≤ w.DeviceOffset
      ∨ w.DeviceOffset + (length : Int) ≤ r.DeviceOffset) :
    ∃ written w1,
      EvtIoWrite device_extension w length = some (written, w1)
        ∧ w1.Completed = w.Completed ++ [(STATUS_SUCCESS, length)]
        ∧ (∀ i : Nat, ((i : Int) < w.DeviceOffset ∨ w.DeviceOffset + (length : Int) ≤ (i : Int)) →
            written.disk_image[i]? = device_extension.disk_image[i]?)
        ∧ (∀ j : Nat, j < length →
            written.disk_image[w.DeviceOffset.toNat + j]? = w.InputBuffer[j]?)
        ∧ ∃ r1,
            EvtIoRead written r count = some (written, r1)
              ∧ EvtIoRead device_extension r count = some (device_extension, r1) := by
  obtain ⟨hw0, hw1⟩ := check_parameters_accepted device_extension _ length hwcheck
  obtain ⟨hr0, hr1⟩ := check_parameters_accepted device_extension _ count hrcheck
  have hwin := accepted_copy_in_image device_extension w.DeviceOffset length himg hsize
    hwoff hwlen hwcheck
  have hrin := accepted_copy_in_image device_extension r.DeviceOffset count himg hsize
    hroff hrlen hrcheck
  have hwlow : LowPart w.DeviceOffset = w.DeviceOffset.toNat := by
    rw [ULONGLONG_of_nonneg hw0 (by omega), Nat.mod_eq_of_lt (by omega)] at hw1
    exact LowPart_nonneg hw0 (by omega)
  have hrlow : LowPart r.DeviceOffset = r.DeviceOffset.toNat := by
    rw [ULONGLONG_of_nonneg hr0 (by omega), Nat.mod_eq_of_lt (by omega)] at hr1
    exact LowPart_nonneg hr0 (by omega)
  have hsrc : (w.InputBuffer.take length).length = length := by
    rw [List.length_take]; omega
  have hfit : LowPart w.DeviceOffset + (w.InputBuffer.take length).length
      ≤ device_extension.disk_image.length := by
    rw [hsrc]; exact hwin
  have hwrite := EvtIoWrite_of_accepted device_extension w length hwcheck hw hwbuf hwin
  have hrcheck' : check_parameters
      { device_extension with
        disk_image := RtlCopyMemory device_extension.disk_image (LowPart w.DeviceOffset)
          (w.InputBuffer.take length) }
      r.DeviceOffset count = true := hrcheck
  have hread' := EvtIoRead_of_accepted
    { device_extension with
      disk_image := RtlCopyMemory device_extension.disk_image (LowPart w.DeviceOffset)
        (w.InputBuffer.take length) }
    r count hrcheck' hr hrbuf
    (by
      show LowPart r.DeviceOffset + count ≤ (RtlCopyMemory _ _ _).length
      rw [RtlCopyMemory_length _ _ _ hfit]
      exact hrin)
  have hread := EvtIoRead_of_accepted device_extension r count hrcheck hr hrbuf hrin
  have hsame : ((RtlCopyMemory device_extension.disk_image (LowPart w.DeviceOffset)
        (w.InputBuffer.take length)).drop (LowPart r.DeviceOffset)).take count
      = (device_extension.disk_image.drop (LowPart r.DeviceOffset)).take count := by
    apply RtlCopyMemory_disjoint_range _ _ _ _ _ hfit
    rw [hsrc, hwlow, hrlow]
    omega
  refine ⟨_, _, hwrite, rfl, ?_, ?_, _, hread', ?_⟩
  · intro i hi
    show (RtlCopyMemory _ _ _)[i]? = _
    apply RtlCopyMemory_getElem?_outside _ _ _ _ hfit
    rw [hsrc, hwlow]
    omega
  · intro j hj
    show (RtlCopyMemory _ _ _)[w.DeviceOffset.toNat + j]? = _
    rw [← hwlow, RtlCopyMemory_getElem?_inside _ _ _ _ hfit (by omega),
      List.getElem?_take_of_lt hj]
  · rw [hread]
    show some _ = some _
    simp only [hsame]

/-- Witness of C24: 512 bytes of `0xAB` written at offset 0 of the default disk, and a
512-byte read at offset 512. -/
theorem write_frame_witness :
    ∃ written w1,
      EvtIoWrite (new_device DEFAULT_DISK_SIZE 0) (write_request 0 (List.replicate 512 0xAB)) 512
          = some (written, w1)
        ∧ w1.Completed = [] ++ [(STATUS_SUCCESS, 512)]
        ∧ (∀ i : Nat, ((i : Int) < 0 ∨ (0 : Int) + (512 : Nat) ≤ (i : Int)) →
            written.disk_image[i]? = (new_device DEFAULT_DISK_SIZE 0).disk_image[i]?)
        ∧ (∀ j : Nat, j < 512 →
            written.disk_image[(0 : Int).toNat + j]? = (List.replicate 512 0xAB)[j]?)
        ∧ ∃ r1,
            EvtIoRead written (read_request 512 (List.replicate 512 0)) 512 = some (written, r1)
              ∧ EvtIoRead (new_device DEFAULT_DISK_SIZE 0)
                  (read_request 512 (List.replicate 512 0)) 512
                = some (new_device DEFAULT_DISK_SIZE 0, r1) :=
  write_frame (new_device DEFAULT_DISK_SIZE 0) (write_request 0 (List.replicate 512 0xAB))
    (read_request 512 (List.replicate 512 0)) 512 512
    (by rw [new_device_image_length, new_device_disk_size])
    (by rw [new_device_disk_size]; decide)
    (by decide) (by decide)
    (by rw [check_parameters_new_device]; decide)
    rfl (by show 512 ≤ (List.replicate 512 171).length; rw [List.length_replicate])
    (by decide) (by decide)
    (by rw [check_parameters_new_device]; decide)
    rfl (by show 512 ≤ (List.replicate 512 0).length; rw [List.length_replicate])
    (Or.inr (by decide))

/-! ### What the handlers leave unchanged -/

/-- The device extension the `switch` of `EvtIoDeviceControl` leaves is the one it was
given, except that set-partition-info may have replaced `partition_type`. -/
theorem EvtIoDeviceControl_switch_device (device_extension : DEVICE_EXTENSION)
    (request : WDFREQUEST) (parameters : WDF_REQUEST_PARAMETERS)
    (output_buffer_length input_buffer_length code : Nat) :
    (∃ d r,
        EvtIoDeviceControl_switch device_extension request parameters output_buffer_length
          input_buffer_length code = .returned d r
        ∧ (d = device_extension
          ∨ (code = IOCTL_DISK_SET_PARTITION_INFO
            ∧ ∃ t, d = { device_extension with
                disk_info := { device_extension.disk_info with partition_type := t } })))
      ∨ (∃ d r status information,
        EvtIoDeviceControl_switch device_extension request parameters output_buffer_length
          input_buffer_length code = .break_ d r status information
        ∧ (d = device_extension
          ∨ (code = IOCTL_DISK_SET_PARTITION_INFO
            ∧ ∃ t, d = { device_extension with
                disk_info := { device_extension.disk_info with partition_type := t } }))) := by
  unfold EvtIoDeviceControl_switch
  by_cases h1 : code = IOCTL_DISK_GET_PARTITION_INFO
  · rw [if_pos h1]
    by_cases hshort : output_buffer_length < sizeof_PARTITION_INFORMATION
    · rw [if_pos hshort]
      exact Or.inl ⟨_, _, rfl, Or.inl rfl⟩
    · rw [if_neg hshort]
      split
      · exact Or.inl ⟨_, _, rfl, Or.inl rfl⟩
      · exact Or.inr ⟨_, _, _, _, rfl, Or.inl rfl⟩
  rw [if_neg h1]
  by_cases h2 : code = IOCTL_DISK_SET_PARTITION_INFO
  · rw [if_pos h2]
    by_cases hshort : input_buffer_length < sizeof_SET_PARTITION_INFORMATION
    · rw [if_pos hshort]
      exact Or.inl ⟨_, _, rfl, Or.inl rfl⟩
    · rw [if_neg hshort]
      split
      · exact Or.inl ⟨_, _, rfl, Or.inl rfl⟩
      · exact Or.inr ⟨_, _, _, _, rfl, Or.inr ⟨h2, _, rfl⟩⟩
  rw [if_neg h2]
  by_cases h3 : code = IOCTL_DISK_GET_DRIVE_GEOMETRY
  · rw [if_pos h3]
    by_cases hshort : output_buffer_length < sizeof_DISK_GEOMETRY
    · rw [if_pos hshort]
      exact Or.inl ⟨_, _, rfl, Or.inl rfl⟩
    · rw [if_neg hshort]
      split
      · exact Or.inl ⟨_, _, rfl, Or.inl rfl⟩
      · exact Or.inr ⟨_, _, _, _, rfl, Or.inl rfl⟩
  rw [if_neg h3]
  by_cases h4 : code = IOCTL_DISK_GET_MEDIA_TYPES ∨ code = IOCTL_STORAGE_GET_MEDIA_TYPES
  · rw [if_pos h4]
    by_cases hshort : output_buffer_length < sizeof_DISK_GEOMETRY
    · rw [if_pos hshort]
      exact Or.inl ⟨_, _, rfl, Or.inl rfl⟩
    · rw [if_neg hshort]
      split
      · exact Or.inl ⟨_, _, rfl, Or.inl rfl⟩
      · exact Or.inr ⟨_, _, _, _, rfl, Or.inl rfl⟩
  rw [if_neg h4]
  by_cases h5 : code = IOCTL_DISK_CHECK_VERIFY ∨ code = IOCTL_STORAGE_CHECK_VERIFY
      ∨ code = IOCTL_DISK_IS_WRITABLE
  · rw [if_pos h5]
    exact Or.inr ⟨_, _, _, _, rfl, Or.inl rfl⟩
  rw [if_neg h5]
  by_cases h6 : code = IOCTL_MOUNTDEV_QUERY_DEVICE_NAME
  · rw [if_pos h6]
    exact Or.inr ⟨_, _, _, _, rfl, Or.inl rfl⟩
  rw [if_neg h6]
  by_cases h7 : code = IOCTL_MOUNTDEV_QUERY_UNIQUE_ID
  · rw [if_pos h7]
    exact Or.inr ⟨_, _, _, _, rfl, Or.inl rfl⟩
  rw [if_neg h7]
  by_cases h8 : code = IOCTL_DISK_MEDIA_REMOVAL ∨ code = IOCTL_STORAGE_MEDIA_REMOVAL
  · rw [if_pos h8]
    by_cases hshort : input_buffer_length < sizeof_BOOLEAN
    · rw [if_pos hshort]
      exact Or.inl ⟨_, _, rfl, Or.inl rfl⟩
    · rw [if_neg hshort]
      exact Or.inr ⟨_, _, _, _, rfl, Or.inl rfl⟩
  rw [if_neg h8]
  by_cases h9 : code = IOCTL_DISK_GET_LENGTH_INFO
  · rw [if_pos h9]
    exact Or.inr ⟨_, _, _, _, rfl, Or.inl rfl⟩
  rw [if_neg h9]
  by_cases h10 : code = IOCTL_STORAGE_GET_HOTPLUG_INFO
  · rw [if_pos h10]
    exact Or.inr ⟨_, _, _, _, rfl, Or.inl rfl⟩
  rw [if_neg h10]
  exact Or.inr ⟨_, _, _, _, rfl, Or.inl rfl⟩

theorem EvtIoDeviceControl_device (device_extension : DEVICE_EXTENSION)
    (request : WDFREQUEST) (output_buffer_length input_buffer_length code : Nat) :
    (EvtIoDeviceControl device_extension request output_buffer_length input_buffer_length
        code).1 = device_extension
      ∨ (code = IOCTL_DISK_SET_PARTITION_INFO
        ∧ ∃ t, (EvtIoDeviceControl device_extension request output_buffer_length
            input_buffer_length code).1
          = { device_extension with
              disk_info := { device_extension.disk_info with partition_type := t } }) := by
  unfold EvtIoDeviceControl
  rcases EvtIoDeviceControl_switch_device device_extension request
      (WdfRequestGetParameters request) output_buffer_length input_buffer_length code with
    ⟨d, r, hexit, hd⟩ | ⟨d, r, status, information, hexit, hd⟩
  · simp only [hexit]
    exact hd
  · simp only [hexit]
    exact hd

/-- C21: `disk_size` and the geometry are invariant under every operation. On a device whose
image has `disk_size < 2 ^ 32` bytes, for a request with an offset in the signed 64-bit
range and buffers shorter than `2 ^ 63` bytes: `EvtIoRead` returns the device extension it
was given; `EvtIoWrite` returns one with the same `disk_info` (size and partition type),
the same geometry and an image of the same length; and `EvtIoDeviceControl`, for every
code, buffer lengths and retrieval outcome, leaves the image, the geometry and `disk_size`
as they were, and the whole device extension unless the code is set-partition-info. So only
a write changes image bytes and only set-partition-info changes `partition_type`. -/
theorem size_and_geometry_invariant (device_extension : DEVICE_EXTENSION)
    (request : WDFREQUEST) (length output_buffer_length input_buffer_length code : Nat)
    (himg : device_extension.disk_image.length = device_extension.disk_info.disk_size)
    (hsize : device_extension.disk_info.disk_size < 2 ^ 32)
    (hoff : request.DeviceOffset < 2 ^ 63)
    (hout : request.OutputBuffer.length < 2 ^ 63)
    (hin : request.InputBuffer.length < 2 ^ 63) :
    (∃ rd, EvtIoRead device_extension request length = some (device_extension, rd))
      ∧ (∃ written wr,
        EvtIoWrite device_extension request length = some (written, wr)
        ∧ written.disk_info = device_extension.disk_info
        ∧ written.disk_geometry = device_extension.disk_geometry
        ∧ written.disk_image.length = device_extension.disk_image.length)
      ∧ (EvtIoDeviceControl device_extension request output_buffer_length
            input_buffer_length code).1.disk_image = device_extension.disk_image
      ∧ (EvtIoDeviceControl device_extension request output_buffer_length
            input_buffer_length code).1.disk_geometry = device_extension.disk_geometry
      ∧ (EvtIoDeviceControl device_extension request output_buffer_length
            input_buffer_length code).1.disk_info.disk_size
          = device_extension.disk_info.disk_size
      ∧ (code ≠ IOCTL_DISK_SET_PARTITION_INFO →
          (EvtIoDeviceControl device_extension request output_buffer_length
            input_buffer_length code).1 = device_extension) := by
  have hcontrol := EvtIoDeviceControl_device device_extension request output_buffer_length
    input_buffer_length code
  refine ⟨?_, ?_, ?_, ?_, ?_, ?_⟩
  · cases hc : check_parameters device_extension request.DeviceOffset length with
    | false => exact ⟨_, EvtIoRead_of_rejected _ _ _ hc⟩
    | true =>
      cases hO : request.OutputFailure with
      | some status => exact ⟨_, EvtIoRead_of_retrieval_failure _ _ _ status hc hO⟩
      | none =>
        by_cases hl : request.OutputBuffer.length < length
        · exact ⟨_, EvtIoRead_of_short_buffer _ _ _ hc hO hl⟩
        · exact ⟨_, EvtIoRead_of_accepted _ _ _ hc hO (by omega)
            (accepted_copy_in_image _ _ _ himg hsize hoff (by omega) hc)⟩
  · cases hc : check_parameters device_extension request.DeviceOffset length with
    | false => exact ⟨_, _, EvtIoWrite_of_rejected _ _ _ hc, rfl, rfl, rfl⟩
    | true =>
      cases hI : request.InputFailure with
      | some status =>
        exact ⟨_, _, EvtIoWrite_of_retrieval_failure _ _ _ status hc hI, rfl, rfl, rfl⟩
      | none =>
        by_cases hl : request.InputBuffer.length < length
        · exact ⟨_, _, EvtIoWrite_of_short_buffer _ _ _ hc hI hl, rfl, rfl, rfl⟩
        · have hfit := accepted_copy_in_image _ _ _ himg hsize hoff (by omega) hc
          refine ⟨_, _, EvtIoWrite_of_accepted _ _ _ hc hI (by omega) hfit, rfl, rfl, ?_⟩
          apply RtlCopyMemory_length
          rw [List.length_take]
          omega
  · rcases hcontrol with h | ⟨_, t, h⟩ <;> rw [h]
  · rcases hcontrol with h | ⟨_, t, h⟩ <;> rw [h]
  · rcases hcontrol with h | ⟨_, t, h⟩ <;> rw [h]
  · intro hne
    rcases hcontrol with h | ⟨hset, _⟩
    · exact h
    · exact absurd hset hne

/-- Witness of C21: a 512-byte request at offset 0 of the default disk, and
set-partition-info with a 1-byte input buffer. -/
theorem size_and_geometry_invariant_witness :
    (∃ rd, EvtIoRead (new_device DEFAULT_DISK_SIZE 0)
        (control_request (List.replicate 512 0) [6]) 512
        = some (new_device DEFAULT_DISK_SIZE 0, rd))
      ∧ (∃ written wr,
        EvtIoWrite (new_device DEFAULT_DISK_SIZE 0)
            (control_request (List.replicate 512 0) [6]) 512 = some (written, wr)
        ∧ written.disk_info = (new_device DEFAULT_DISK_SIZE 0).disk_info
        ∧ written.disk_geometry = (new_device DEFAULT_DISK_SIZE 0).disk_geometry
        ∧ written.disk_image.length = (new_device DEFAULT_DISK_SIZE 0).disk_image.length)
      ∧ (EvtIoDeviceControl (new_device DEFAULT_DISK_SIZE 0)
            (control_request (List.replicate 512 0) [6]) 512 1
            IOCTL_DISK_SET_PARTITION_INFO).1.disk_image
          = (new_device DEFAULT_DISK_SIZE 0).disk_image
      ∧ (EvtIoDeviceControl (new_device DEFAULT_DISK_SIZE 0)
            (control_request (List.replicate 512 0) [6]) 512 1
            IOCTL_DISK_SET_PARTITION_INFO).1.disk_geometry
          = (new_device DEFAULT_DISK_SIZE 0).disk_geometry
      ∧ (EvtIoDeviceControl (new_device DEFAULT_DISK_SIZE 0)
            (control_request (List.replicate 512 0) [6]) 512 1
            IOCTL_DISK_SET_PARTITION_INFO).1.disk_info.disk_size
          = (new_device DEFAULT_DISK_SIZE 0).disk_info.disk_size :=
  have h := size_and_geometry_invariant (new_device DEFAULT_DISK_SIZE 0)
    (control_request (List.replicate 512 0) [6]) 512 512 1 IOCTL_DISK_SET_PARTITION_INFO
    (by rw [new_device_image_length, new_device_disk_size])
    (by rw [new_device_disk_size]; decide)
    (by decide)
    (by show (List.replicate 512 0).length < 2 ^ 63; rw [List.length_replicate]; decide)
    (by decide)
  ⟨h.1, h.2.1, h.2.2.1, h.2.2.2.1, h.2.2.2.2.1⟩

/-! ### The reported size and the caller's buffer -/

theorem too_small_not_transfer :
    ¬ (STATUS_BUFFER_TOO_SMALL = STATUS_SUCCESS
        ∨ STATUS_BUFFER_TOO_SMALL = STATUS_BUFFER_OVERFLOW) := by
  decide

theorem invalid_request_not_transfer :
    ¬ (STATUS_INVALID_DEVICE_REQUEST = STATUS_SUCCESS
        ∨ STATUS_INVALID_DEVICE_REQUEST = STATUS_BUFFER_OVERFLOW) := by
  decide

theorem query_device_name_information_le (request : WDFREQUEST)
    (parameters : WDF_REQUEST_PARAMETERS)
    (hs : (query_device_name request parameters).1 = STATUS_SUCCESS
      ∨ (query_device_name request parameters).1 = STATUS_BUFFER_OVERFLOW) :
    (query_device_name request parameters).2.1 ≤ parameters.OutputBufferLength := by
  unfold query_device_name at hs ⊢
  by_cases h1 : parameters.OutputBufferLength < sizeof_MOUNTDEV_NAME
  · rw [if_pos h1] at hs
    exact absurd hs too_small_not_transfer
  · rw [if_neg h1] at hs ⊢
    split
    · exact Nat.zero_le _
    · by_cases h2 : parameters.OutputBufferLength < sizeof_USHORT + nt_name.Length
      · simp only [if_pos h2]
        exact Nat.not_lt.mp h1
      · simp only [if_neg h2]
        exact Nat.not_lt.mp h2

theorem query_unique_id_information_le (request : WDFREQUEST)
    (parameters : WDF_REQUEST_PARAMETERS)
    (hs : (query_unique_id request parameters).1 = STATUS_SUCCESS
      ∨ (query_unique_id request parameters).1 = STATUS_BUFFER_OVERFLOW) :
    (query_unique_id request parameters).2.1 ≤ parameters.OutputBufferLength := by
  unfold query_unique_id at hs ⊢
  by_cases h1 : parameters.OutputBufferLength < sizeof_MOUNTDEV_UNIQUE_ID
  · rw [if_pos h1] at hs
    exact absurd hs too_small_not_transfer
  · rw [if_neg h1] at hs ⊢
    split
    · exact Nat.zero_le _
    · by_cases h2 : parameters.OutputBufferLength < sizeof_USHORT + nt_name.Length
      · simp only [if_pos h2]
        exact Nat.not_lt.mp h1
      · simp only [if_neg h2]
        exact Nat.not_lt.mp h2

theorem get_length_info_information_le (device_extension : DEVICE_EXTENSION)
    (request : WDFREQUEST) (parameters : WDF_REQUEST_PARAMETERS)
    (hs : (get_length_info device_extension request parameters).1 = STATUS_SUCCESS
      ∨ (get_length_info device_extension request parameters).1 = STATUS_BUFFER_OVERFLOW) :
    (get_length_info device_extension request parameters).2.1
      ≤ parameters.OutputBufferLength := by
  unfold get_length_info at hs ⊢
  by_cases h1 : parameters.OutputBufferLength < sizeof_GET_LENGTH_INFORMATION
  · rw [if_pos h1] at hs
    exact absurd hs too_small_not_transfer
  · rw [if_neg h1] at hs ⊢
    split
    · exact Nat.zero_le _
    · exact Nat.not_lt.mp h1

theorem get_hotplug_info_information_le (request : WDFREQUEST)
    (parameters : WDF_REQUEST_PARAMETERS)
    (hs : (get_hotplug_info request parameters).1 = STATUS_SUCCESS
      ∨ (get_hotplug_info request parameters).1 = STATUS_BUFFER_OVERFLOW) :
    (get_hotplug_info request parameters).2.1 ≤ parameters.OutputBufferLength := by
  unfold get_hotplug_info at hs ⊢
  by_cases h1 : parameters.OutputBufferLength < sizeof_STORAGE_HOTPLUG_INFO
  · rw [if_pos h1] at hs
    exact absurd hs too_small_not_transfer
  · rw [if_neg h1] at hs ⊢
    split
    · exact Nat.zero_le _
    · exact Nat.not_lt.mp h1

/-- When the handler is given the length of the request's output buffer, every exit of the
`switch` that carries `STATUS_SUCCESS` or `STATUS_BUFFER_OVERFLOW` carries an information
value of at most that length. -/
theorem EvtIoDeviceControl_switch_information_le (device_extension : DEVICE_EXTENSION)
    (request : WDFREQUEST) (parameters : WDF_REQUEST_PARAMETERS)
    (input_buffer_length code : Nat) :
    (∃ d r status information,
        EvtIoDeviceControl_switch device_extension request parameters
          parameters.OutputBufferLength input_buffer_length code = .returned d r
        ∧ r.Completed = request.Completed ++ [(status, information)]
        ∧ ((status = STATUS_SUCCESS ∨ status = STATUS_BUFFER_OVERFLOW) →
            information ≤ parameters.OutputBufferLength))
      ∨ (∃ d r status information,
        EvtIoDeviceControl_switch device_extension request parameters
          parameters.OutputBufferLength input_buffer_length code
            = .break_ d r status information
        ∧ r.Completed = request.Completed
        ∧ ((status = STATUS_SUCCESS ∨ status = STATUS_BUFFER_OVERFLOW) →
            information ≤ parameters.OutputBufferLength)) := by
  unfold EvtIoDeviceControl_switch
  by_cases h1 : code = IOCTL_DISK_GET_PARTITION_INFO
  · rw [if_pos h1]
    by_cases hshort : parameters.OutputBufferLength < sizeof_PARTITION_INFORMATION
    · rw [if_pos hshort]
      exact Or.inl ⟨_, _, _, _, rfl, rfl, fun h => absurd h too_small_not_transfer⟩
    · rw [if_neg hshort]
      split
      · exact Or.inl ⟨_, _, _, _, rfl, rfl, fun _ => Nat.zero_le _⟩
      · exact Or.inr ⟨_, _, _, _, rfl, rfl, fun _ => Nat.not_lt.mp hshort⟩
  rw [if_neg h1]
  by_cases h2 : code = IOCTL_DISK_SET_PARTITION_INFO
  · rw [if_pos h2]
    by_cases hshort : input_buffer_length < sizeof_SET_PARTITION_INFORMATION
    · rw [if_pos hshort]
      exact Or.inl ⟨_, _, _, _, rfl, rfl, fun h => absurd h too_small_not_transfer⟩
    · rw [if_neg hshort]
      split
      · exact Or.inl ⟨_, _, _, _, rfl, rfl, fun _ => Nat.zero_le _⟩
      · exact Or.inr ⟨_, _, _, _, rfl, rfl, fun _ => Nat.zero_le _⟩
  rw [if_neg h2]
  by_cases h3 : code = IOCTL_DISK_GET_DRIVE_GEOMETRY
  · rw [if_pos h3]
    by_cases hshort : parameters.OutputBufferLength < sizeof_DISK_GEOMETRY
    · rw [if_pos hshort]
      exact Or.inl ⟨_, _, _, _, rfl, rfl, fun h => absurd h too_small_not_transfer⟩
    · rw [if_neg hshort]
      split
      · exact Or.inl ⟨_, _, _, _, rfl, rfl, fun _ => Nat.zero_le _⟩
      · exact Or.inr ⟨_, _, _, _, rfl, rfl, fun _ => Nat.not_lt.mp hshort⟩
  rw [if_neg h3]
  by_cases h4 : code = IOCTL_DISK_GET_MEDIA_TYPES ∨ code = IOCTL_STORAGE_GET_MEDIA_TYPES
  · rw [if_pos h4]
    by_cases hshort : parameters.OutputBufferLength < sizeof_DISK_GEOMETRY
    · rw [if_pos hshort]
      exact Or.inl ⟨_, _, _, _, rfl, rfl, fun h => absurd h too_small_not_transfer⟩
    · rw [if_neg hshort]
      split
      · exact Or.inl ⟨_, _, _, _, rfl, rfl, fun _ => Nat.zero_le _⟩
      · exact Or.inr ⟨_, _, _, _, rfl, rfl, fun _ => Nat.not_lt.mp hshort⟩
  rw [if_neg h4]
  by_cases h5 : code = IOCTL_DISK_CHECK_VERIFY ∨ code = IOCTL_STORAGE_CHECK_VERIFY
      ∨ code = IOCTL_DISK_IS_WRITABLE
  · rw [if_pos h5]
    exact Or.inr ⟨_, _, _, _, rfl, rfl, fun _ => Nat.zero_le _⟩
  rw [if_neg h5]
  by_cases h6 : code = IOCTL_MOUNTDEV_QUERY_DEVICE_NAME
  · rw [if_pos h6]
    exact Or.inr ⟨_, _, _, _, rfl, query_device_name_Completed _ _,
      query_device_name_information_le _ _⟩
  rw [if_neg h6]
  by_cases h7 : code = IOCTL_MOUNTDEV_QUERY_UNIQUE_ID
  · rw [if_pos h7]
    exact Or.inr ⟨_, _, _, _, rfl, query_unique_id_Completed _ _,
      query_unique_id_information_le _ _⟩
  rw [if_neg h7]
  by_cases h8 : code = IOCTL_DISK_MEDIA_REMOVAL ∨ code = IOCTL_STORAGE_MEDIA_REMOVAL
  · rw [if_pos h8]
    by_cases hshort : input_buffer_length < sizeof_BOOLEAN
    · rw [if_pos hshort]
      exact Or.inl ⟨_, _, _, _, rfl, rfl, fun h => absurd h invalid_request_not_transfer⟩
    · rw [if_neg hshort]
      exact Or.inr ⟨_, _, _, _, rfl, rfl, fun _ => Nat.zero_le _⟩
  rw [if_neg h8]
  by_cases h9 : code = IOCTL_DISK_GET_LENGTH_INFO
  · rw [if_pos h9]
    exact Or.inr ⟨_, _, _, _, rfl, get_length_info_Completed _ _ _,
      get_length_info_information_le _ _ _⟩
  rw [if_neg h9]
  by_cases h10 : code = IOCTL_STORAGE_GET_HOTPLUG_INFO
  · rw [if_pos h10]
    exact Or.inr ⟨_, _, _, _, rfl, get_hotplug_info_Completed _ _,
      get_hotplug_info_information_le _ _⟩
  rw [if_neg h10]
  exact Or.inr ⟨_, _, _, _, rfl, rfl, fun _ => Nat.zero_le _⟩

/-- C25: the reported size never exceeds the caller's buffer. For every control code, device
extension and request (whatever its buffers and the outcome of their retrieval), when
`EvtIoDeviceControl` completes the request with `STATUS_SUCCESS` or
`STATUS_BUFFER_OVERFLOW`, the byte count it reports is at most the length of the request's
output buffer. -/
theorem reported_size_within_buffer (device_extension : DEVICE_EXTENSION)
    (request : WDFREQUEST) (code : Nat) (status : NTSTATUS) (information : Nat)
    (hdone : (device_control device_extension request code).2.Completed
      = request.Completed ++ [(status, information)])
    (hstatus : status = STATUS_SUCCESS ∨ status = STATUS_BUFFER_OVERFLOW) :
    information ≤ request.OutputBuffer.length := by
  unfold device_control EvtIoDeviceControl at hdone
  rcases EvtIoDeviceControl_switch_information_le device_extension request
      (WdfRequestGetParameters request) request.InputBuffer.length code with
    ⟨d, r, s, n, hexit, hr, hle⟩ | ⟨d, r, s, n, hexit, hr, hle⟩
  · have hexit' : EvtIoDeviceControl_switch device_extension request
        (WdfRequestGetParameters request) request.OutputBuffer.length
        request.InputBuffer.length code = .returned d r := hexit
    simp only [hexit'] at hdone
    rw [hr, completed_append_inj] at hdone
    have hs : s = status := congrArg Prod.fst hdone
    have hn : n = information := congrArg Prod.snd hdone
    subst hs hn
    exact hle hstatus
  · have hexit' : EvtIoDeviceControl_switch device_extension request
        (WdfRequestGetParameters request) request.OutputBuffer.length
        request.InputBuffer.length code = .break_ d r s n := hexit
    simp only [hexit', WdfRequestCompleteWithInformation] at hdone
    rw [hr, completed_append_inj] at hdone
    have hs : s = status := congrArg Prod.fst hdone
    have hn : n = information := congrArg Prod.snd hdone
    subst hs hn
    exact hle hstatus

/-- Witness of C25: get-drive-geometry with a 24-byte buffer on the default disk reports 24
bytes. -/
theorem reported_size_within_buffer_witness :
    (device_control (new_device DEFAULT_DISK_SIZE 0) (control_request (List.replicate 24 0) [])
        IOCTL_DISK_GET_DRIVE_GEOMETRY).2.Completed
        = (control_request (List.replicate 24 0) []).Completed ++ [(STATUS_SUCCESS, 24)]
      ∧ 24 ≤ (control_request (List.replicate 24 0) []).OutputBuffer.length :=
  ⟨by decide,
    reported_size_within_buffer (new_device DEFAULT_DISK_SIZE 0)
      (control_request (List.replicate 24 0) []) IOCTL_DISK_GET_DRIVE_GEOMETRY
      STATUS_SUCCESS 24 (by decide) (Or.inl rfl)⟩

/-! ### The allocation hooks -/

/-- C22, the code at a newly created request: `EvtIoAllocateResources` returns
`STATUS_SUCCESS` and leaves the request object as it was, with no forward-progress context
attached, whatever the queue; the reserved staging hook on the same object attaches a
context when it returns `STATUS_SUCCESS`, and returns the failure status, attaching
nothing, when the allocation fails. -/
theorem normal_hook_attaches_nothing (Queue : WDFQUEUE) (failure : NTSTATUS) :
    EvtIoAllocateResources Queue new_request_object = (STATUS_SUCCESS, new_request_object)
      ∧ GetForwardProgressRequestContext
          (EvtIoAllocateResources Queue new_request_object).2 = none
      ∧ (EvtIoAllocateResourcesForReservedRequest Queue new_request_object none).1
          = STATUS_SUCCESS
      ∧ GetForwardProgressRequestContext
          (EvtIoAllocateResourcesForReservedRequest Queue new_request_object none).2
          = some FWD_PROGRESS_REQUEST_CONTEXT.zeroed
      ∧ EvtIoAllocateResourcesForReservedRequest Queue new_request_object (some failure)
          = (failure, new_request_object) := by
  refine ⟨rfl, rfl, rfl, rfl, ?_⟩
  unfold EvtIoAllocateResourcesForReservedRequest AllocateAdditionalRequestContext
    WdfObjectAllocateContext
  simp only
  split_ifs <;> rfl

end Ramdisk
